import Mathlib

/-!
# Verification of the coop_cov agent coordination and estimation loop

This file is a shallow embedding of `auv_agent.py` (classes `Agent` and
`RunnableMission`) from the coop_cov repository, together with proofs about
the embedded operations.

External collaborators that the repository consumes but does not define
(the AUV kinematic model, the pose-graph back end, the dubins path planner,
the geometry toolbox, numpy's trigonometry and random draw) are represented
as explicit oracle parameters gathered in an `Env` structure: the embedded
code calls them exactly where the source does, and records the arguments it
passes to them in ghost `UpdateEffects` / `CommEffects` records so that
theorems can speak about those calls.  All numeric state is ℚ.
-/

namespace CoopCov

/-- A pose (x, y, heading).  The source keeps poses as 3-arrays `apose`
and tuples `pose` with identical contents; both are this structure. -/
structure Pose where
  x : ℚ
  y : ℚ
  h : ℚ
deriving DecidableEq, Repr

/-- The (x, y) projection `pose[:2]` used by all planar distance calls. -/
def poseXY (p : Pose) : ℚ × ℚ := (p.x, p.y)

/-- Modelled from the spec: the ordinal position of a waypoint within its
local group (`TimedWaypoint.FIRST/MIDDLE/LAST` constants of the external
`mission_plan.py`, which is not part of the repository sources). -/
inductive PositionInLine where
  | first
  | middle
  | last
deriving DecidableEq, Repr

/-- Modelled from the spec: a timed waypoint of the external mission plan,
carrying exactly the fields `auv_agent.py` reads or writes: target pose,
scheduled time, the mutable rendezvous flag, the index in the repeating
pattern, the position in line and the uncertainty radius. -/
structure TimedWaypoint where
  pose : Pose
  time : ℚ
  rendezvous_happened : Bool
  idx_in_pattern : ℕ
  position_in_line : PositionInLine
  uncertainty_radius : ℚ
deriving DecidableEq, Repr

/-- The named scalar configuration parameters `auv_agent.py` reads from
`mission_plan.config`. -/
structure MissionConfig where
  comm_range : ℚ
  landmark_range : ℚ
  turning_rad : ℚ
  uncertainty_accumulation_rate_k : ℚ
  heading_noise_degrees : ℚ
  swath : ℚ
  speed : ℚ
  rect_width : ℚ
  rect_height : ℚ
deriving DecidableEq, Repr

/-- Modelled from the spec: the external mission plan, seen through the
read/advance interface the agent uses (`get_current_wp` / `visit_current_wp`):
an ordered waypoint list with a cursor of already-visited waypoints. -/
structure MissionPlan where
  wps : List TimedWaypoint
  cursor : ℕ
  config : MissionConfig
deriving DecidableEq, Repr

/-- Modelled from the spec: `mission_plan.get_current_wp(agent_id)` returns
the waypoint at the cursor, or none when the plan is exhausted. -/
def MissionPlan.get_current_wp (mp : MissionPlan) : Option TimedWaypoint :=
  mp.wps.get? mp.cursor

/-- Modelled from the spec: `mission_plan.visit_current_wp(agent_id)`
advances the per-agent cursor. -/
def MissionPlan.visit_current_wp (mp : MissionPlan) : MissionPlan :=
  { mp with cursor := mp.cursor + 1 }

/-- Setting `current_timed_wp.rendezvous_happened = True` on the waypoint
currently under the cursor (the only mission-plan mutation in
`Agent.communicate`). -/
def MissionPlan.mark_current_rendezvous (mp : MissionPlan) (wp : TimedWaypoint) :
    MissionPlan :=
  { mp with wps := mp.wps.set mp.cursor { wp with rendezvous_happened := true } }

/-- Modelled from the spec: the state of the external AUV vehicle model
(`auv.py`), restricted to the fields `auv_agent.py` reads. -/
structure AUV where
  auv_id : ℤ
  pose : Pose
  target_threshold : ℚ
  forward_speed : ℚ
  auv_length : ℚ
  max_turn_angle : ℚ
  target : Option (ℚ × ℚ)
  cover_mode : Bool
  last_moved_distance : ℚ
  total_distance_traveled : ℚ
deriving DecidableEq, Repr

/-- `auv.set_target(posi, cover=...)`: store the steering target. -/
def AUV.set_target (a : AUV) (posi : ℚ × ℚ) (cover : Bool) : AUV :=
  { a with target := some posi, cover_mode := cover }

/-- `auv.set_heading(angle)`. -/
def AUV.set_heading (a : AUV) (angle : ℚ) : AUV :=
  { a with pose := { a.pose with h := angle } }

/-- `auv.set_pose(pose)`. -/
def AUV.set_pose (a : AUV) (p : Pose) : AUV :=
  { a with pose := p }

/-- Modelled from the spec: the external pose graph, seen as the append-only
odometry pose sequence the agent feeds it; edge bookkeeping lives behind the
oracle calls. -/
structure PoseGraph where
  pg_id : ℤ
  odom_poses : List Pose
deriving DecidableEq, Repr

/-- `pg.append_odom_pose(pose)`. -/
def PoseGraph.append_odom_pose (pg : PoseGraph) (p : Pose) : PoseGraph :=
  { pg with odom_poses := pg.odom_poses ++ [p] }

/-- Modelled from the spec: `drift_model.sample(x, y)` returns a triple whose
third component is the drift translation angle (the only component used). -/
def DriftModel : Type := ℚ → ℚ → ℚ × ℚ × ℚ

/-- The fields of another agent that `Agent.update` / `Agent.communicate`
read: its id, its pose graph, its landmark flag and its ground-truth pose. -/
structure Peer where
  id : ℤ
  pg : PoseGraph
  is_landmark : Bool
  real_pose : Pose

/-- Modelled from the spec: the numeric external functions
(`toolbox.geometry.euclid_distance` on 2-vectors and 3-vectors, numpy's
cos/sin/deg2rad), taken as parameters. -/
structure Geom where
  dist2D : ℚ × ℚ → ℚ × ℚ → ℚ
  dist3D : Pose → Pose → ℚ
  cos : ℚ → ℚ
  sin : ℚ → ℚ
  deg2rad : ℚ → ℚ

/-- The argument record of one `real_auv.update(...)` call. -/
structure RealArgs where
  dt : ℚ
  turn_direction : ℚ
  turn_amount : ℚ
  drift_x : ℚ
  drift_y : ℚ
  drift_heading : ℚ
  cover : Bool
deriving DecidableEq, Repr

/-- Modelled from the spec: the motion integration of the external vehicle
model.  `stepInternal` is `internal_auv.update(dt)` returning the moved
vehicle and the control pair `(turn_direction, turn_amount)`; `stepReal` is
`real_auv.update(dt, td, ta, drift_x, drift_y, drift_heading, cover)`. -/
structure AUVDyn where
  stepInternal : AUV → ℚ → AUV × ℚ × ℚ
  stepReal : AUV → RealArgs → AUV

/-- All external collaborators bundled: geometry, vehicle dynamics, the
dubins planner (`shortest_path` + `sample_many(0.5)` as one call), and the
pose-graph operations `measure_tip_to_tip`, `fill_in_since_last_interaction`
and `optimize`. -/
structure Env where
  geom : Geom
  dyn : AUVDyn
  dubins : Pose → Pose → ℚ → List Pose
  measure : PoseGraph → Pose → Pose → Bool → PoseGraph
  fillIn : PoseGraph → PoseGraph → Bool → PoseGraph × ℕ × ℕ
  optimize : PoseGraph → Bool → Bool × Pose

/-- Ghost record of what one `Agent.update` call did: the arguments passed
to the ground-truth vehicle's update, the argument passed to the belief
vehicle's update (only `dt` — its signature carries no drift inputs), the
drawn heading noise, the computed cover/alone/no-landmark flags, the moved
distance read back from the belief vehicle, and the active waypoint. -/
structure UpdateEffects where
  realArgs : Option RealArgs
  internalArgs : Option ℚ
  heading_noise : ℚ
  cover : Bool
  alone : Bool
  no_landmarks : Bool
  moved_dist : ℚ
  activeWp : Option TimedWaypoint

/-- The effects record of an update call that returned before the motion
phase (landmark early return or exhausted mission). -/
def UpdateEffects.nothing : UpdateEffects :=
  { realArgs := none
    internalArgs := none
    heading_noise := 0
    cover := false
    alone := true
    no_landmarks := true
    moved_dist := 0
    activeWp := none }

/-- Ghost record of what one `Agent.communicate` call did: how many times
the estimator's optimize operation was invoked, and whether this tick was
recorded as connected. -/
structure CommEffects where
  optimizeCalls : ℕ
  connected : Bool
deriving DecidableEq, Repr

/-- Python's `trace[-1]`. -/
def listNeg1 (l : List Bool) : Option Bool := l.getLast?

/-- Python's `trace[-2]`. -/
def listNeg2 (l : List Bool) : Option Bool := l.dropLast.getLast?

/-- The agent state: the exact mutable attribute set of `Agent.__init__`
(visualization-only color constant omitted). -/
structure Agent where
  real_auv : AUV
  is_landmark : Bool
  pg : PoseGraph
  mission_plan : MissionPlan
  drift_model : Option DriftModel
  internal_auv : AUV
  id : ℤ
  time : ℚ
  connection_trace : List Bool
  received_data_verts : List (ℚ × ℚ)
  received_data_edges : List (ℚ × ℚ)
  real_errors : List (ℚ × ℚ)
  real_moved_dists : List (ℚ × ℚ)
  position_error_drops : List (ℚ × ℚ)
  waypoint_reaching_times : List (ℚ × ℚ)
  current_dubins_points : List Pose
  viz_plan_points : List Pose
  viz_optim_points : List Pose
  viz_waited_points : List Pose

/-- `Agent.__init__(real_auv, pose_graph, mission_plan, drift_model)`:
the landmark flag is `forward_speed == 0`; the internal (belief) vehicle is
constructed at the real vehicle's pose; if the agent is a landmark, exactly
one odometry pose is appended to the pose graph, here and never again. -/
def Agent.init (real_auv : AUV) (pose_graph : PoseGraph)
    (mission_plan : MissionPlan) (drift_model : Option DriftModel) : Agent :=
  let is_lm : Bool := real_auv.forward_speed == 0
  { real_auv := real_auv
    is_landmark := is_lm
    pg := if is_lm then pose_graph.append_odom_pose real_auv.pose else pose_graph
    mission_plan := mission_plan
    drift_model := drift_model
    internal_auv :=
      { auv_id := real_auv.auv_id
        pose := real_auv.pose
        target_threshold := real_auv.target_threshold
        forward_speed := real_auv.forward_speed
        auv_length := real_auv.auv_length
        max_turn_angle := real_auv.max_turn_angle
        target := none
        cover_mode := false
        last_moved_distance := 0
        total_distance_traveled := 0 }
    id := real_auv.auv_id
    time := 0
    connection_trace := []
    received_data_verts := [(0, 0)]
    received_data_edges := [(0, 0)]
    real_errors := []
    real_moved_dists := []
    position_error_drops := []
    waypoint_reaching_times := []
    current_dubins_points := []
    viz_plan_points := []
    viz_optim_points := []
    viz_waited_points := [] }

/-- `cover = current_timed_wp.position_in_line == TimedWaypoint.LAST`. -/
def Agent.coverFlag (wp : TimedWaypoint) : Bool :=
  wp.position_in_line == PositionInLine.last

/-- The `alone` / `no_landmarks` scan of `Agent.update`: fold over
`all_agents + landmarks`, skip self by pose-graph id, compare the
ground-truth distance against the communication range (landmark range for
landmarks); accumulator is `(alone, no_landmarks)`. -/
def Agent.scanPeers (g : Geom) (self_pg_id : ℤ) (self_pos : ℚ × ℚ)
    (cfg : MissionConfig) : List Peer → Bool × Bool → Bool × Bool
  | [], acc => acc
  | agent :: rest, acc =>
    let acc' :=
      if agent.pg.pg_id = self_pg_id then acc
      else
        let d := g.dist2D self_pos (poseXY agent.real_pose)
        let lim := if agent.is_landmark then cfg.landmark_range else cfg.comm_range
        if d ≤ lim then
          if agent.is_landmark then (acc.1, false) else (false, acc.2)
        else acc
    Agent.scanPeers g self_pg_id self_pos cfg rest acc'

/-- The drift computation of `Agent.update`: when covering, alone and a
drift model is configured, sample the drift angle at the ground-truth
position, set `drift_mag = moved_dist * k` and draw the bounded heading
noise; otherwise all three are zero.  Returns
`(drift_x, drift_y, heading_noise)`. -/
def Agent.driftTriple (g : Geom) (rand : ℚ) (s : Agent)
    (cover alone : Bool) (moved_dist : ℚ) : ℚ × ℚ × ℚ :=
  match s.drift_model with
  | some dm =>
    if cover && alone then
      let drift_trans_angle := (dm s.real_auv.pose.x s.real_auv.pose.y).2.2
      let drift_trans_k := s.mission_plan.config.uncertainty_accumulation_rate_k
      let drift_mag := moved_dist * drift_trans_k
      (drift_mag * g.cos drift_trans_angle,
       drift_mag * g.sin drift_trans_angle,
       g.deg2rad ((rand * 2 - 1) * s.mission_plan.config.heading_noise_degrees))
    else (0, 0, 0)
  | none => (0, 0, 0)

/-- The advance condition of the mission-sync block:
`wp_time_reached or rendezvous_happened`, where the rendezvous part also
requires the waypoint's pattern index to lie in the rendezvous-eligible
set `[1, 3, 5]`. -/
def wpAdvanceCond (t : ℚ) (wp0 : TimedWaypoint) : Prop :=
  t ≥ wp0.time ∨
    (wp0.rendezvous_happened = true ∧ wp0.idx_in_pattern ∈ [1, 3, 5])

instance (t : ℚ) (wp0 : TimedWaypoint) : Decidable (wpAdvanceCond t wp0) :=
  inferInstanceAs (Decidable (t ≥ wp0.time ∨
    (wp0.rendezvous_happened = true ∧ wp0.idx_in_pattern ∈ [1, 3, 5])))

/-- The MISSION SYNC block of `Agent.update` (after the time increment and
the landmark early return).  Returns the mutated agent and, when the agent
is not mission-complete, the current waypoint together with the distance
value the later path planning block keeps using (the distance to the
waypoint that was current when it was computed, even if the cursor
advanced). -/
def Agent.missionSync (g : Geom) (s : Agent) :
    Agent × Option (TimedWaypoint × ℚ) :=
  match s.mission_plan.get_current_wp with
  | none =>
    let s1 : Agent := { s with mission_plan := s.mission_plan.visit_current_wp }
    match s1.mission_plan.get_current_wp with
    | none => (s1, none)
    | some wp =>
      (s1, some (wp, g.dist2D (poseXY s1.internal_auv.pose) (poseXY wp.pose)))
  | some wp0 =>
    let dist := g.dist2D (poseXY s.internal_auv.pose) (poseXY wp0.pose)
    if dist ≤ s.internal_auv.target_threshold then
      let s1 : Agent :=
        { s with waypoint_reaching_times :=
            s.waypoint_reaching_times ++ [(s.time, s.time - wp0.time)] }
      if wpAdvanceCond s1.time wp0 then
        let s2 : Agent :=
          { s1 with mission_plan := s1.mission_plan.visit_current_wp
                    current_dubins_points := [] }
        match s2.mission_plan.get_current_wp with
        | none => (s2, none)
        | some wp1 => (s2, some (wp1, dist))
      else
        ({ s1 with viz_waited_points :=
             s1.viz_waited_points ++ [s1.internal_auv.pose] },
         some (wp0, dist))
    else (s, some (wp0, dist))

/-- The dubins lead-sample dropping loop of `Agent.update`: while the lead
sample is within the arrival threshold, drop it if another sample remains,
otherwise stop (the final sample is never dropped). -/
def dubinsSkip (g : Geom) (pos : ℚ × ℚ) (thr : ℚ) : List Pose → List Pose
  | [] => []
  | [p] => [p]
  | p :: q :: rest =>
    if g.dist2D pos (poseXY p) ≤ thr then dubinsSkip g pos thr (q :: rest)
    else p :: q :: rest

/-- The PATH PLANNING block of `Agent.update`.  Close targets (stale
distance below threshold + 0.5) are steered at directly; otherwise the
dubins plan is lazily sampled once per waypoint and the lead-sample loop
runs.  Returns none exactly where the source would raise an IndexError:
reading `pts[0]` of an empty freshly-sampled path. -/
def Agent.pathPlanning (env : Env) (s : Agent) (wp : TimedWaypoint)
    (dist : ℚ) : Option (Agent × (ℚ × ℚ)) :=
  if dist < s.internal_auv.target_threshold + 1 / 2 then
    some (s, poseXY wp.pose)
  else
    let planned :=
      if s.current_dubins_points.length = 0 then
        let pts := env.dubins s.internal_auv.pose wp.pose
          s.mission_plan.config.turning_rad
        ({ s with current_dubins_points := pts
                  viz_plan_points := s.viz_plan_points ++ [s.internal_auv.pose] },
         pts)
      else (s, s.current_dubins_points)
    let s1 := planned.1
    match planned.2 with
    | [] => none
    | p :: rest =>
      match dubinsSkip env.geom (poseXY s1.internal_auv.pose)
          s1.internal_auv.target_threshold (p :: rest) with
      | [] => none
      | q :: qs =>
        some ({ s1 with current_dubins_points := q :: qs }, poseXY q)

/-- The MOTION and belief-update blocks of `Agent.update`: compute cover
and alone/no-landmark flags, drive the belief vehicle, compute drift, drive
the ground-truth vehicle with the control pair, the drift vector and a zero
drift heading, copy ground truth's heading plus heading noise onto the
belief vehicle, snap the belief pose to ground truth near a landmark,
append the belief pose to the pose graph and log the error and moved
distance. -/
def Agent.motionPhase (env : Env) (rand dt : ℚ) (s : Agent)
    (wp : TimedWaypoint) (target : ℚ × ℚ)
    (all_agents landmarks : List Peer) : Agent × UpdateEffects :=
  let cover := Agent.coverFlag wp
  let scans := Agent.scanPeers env.geom s.pg.pg_id (poseXY s.real_auv.pose)
    s.mission_plan.config (all_agents ++ landmarks) (true, true)
  let alone := scans.1
  let no_landmarks := scans.2
  let internal1 := s.internal_auv.set_target target cover
  let stepped := env.dyn.stepInternal internal1 dt
  let internal2 := stepped.1
  let td := stepped.2.1
  let ta := stepped.2.2
  let moved_dist := internal2.last_moved_distance
  let drift := Agent.driftTriple env.geom rand s cover alone moved_dist
  let args : RealArgs :=
    { dt := dt
      turn_direction := td
      turn_amount := ta
      drift_x := drift.1
      drift_y := drift.2.1
      drift_heading := 0
      cover := cover }
  let real2 := env.dyn.stepReal s.real_auv args
  let internal3 := internal2.set_heading (real2.pose.h + drift.2.2)
  let internal4 := if no_landmarks then internal3 else internal3.set_pose real2.pose
  let pg2 := s.pg.append_odom_pose internal4.pose
  let real_err := env.geom.dist2D (poseXY real2.pose) (poseXY internal4.pose)
  ({ s with real_auv := real2
            internal_auv := internal4
            pg := pg2
            real_errors := s.real_errors ++ [(s.time, real_err)]
            real_moved_dists := s.real_moved_dists ++ [(s.time, moved_dist)] },
   { realArgs := some args
     internalArgs := some dt
     heading_noise := drift.2.2
     cover := cover
     alone := alone
     no_landmarks := no_landmarks
     moved_dist := moved_dist
     activeWp := some wp })

/-- `Agent.update(dt, all_agents, landmarks)`.  The time advances first;
a landmark agent then returns immediately; an exhausted mission returns
after the mission-sync mutations; otherwise path planning picks the
steering target and the motion phase runs.  `rand` is this tick's
`np.random.random()` draw.  Returns none exactly where the source would
raise (empty dubins sample). -/
def Agent.update (env : Env) (dt : ℚ) (s0 : Agent)
    (all_agents landmarks : List Peer) (rand : ℚ) :
    Option (Agent × UpdateEffects) :=
  let s := { s0 with time := s0.time + dt }
  if s.is_landmark then some (s, UpdateEffects.nothing)
  else
    match Agent.missionSync env.geom s with
    | (s1, none) => some (s1, UpdateEffects.nothing)
    | (s1, some (wp, dist)) =>
      match Agent.pathPlanning env s1 wp dist with
      | none => none
      | some (s2, target) =>
        some (Agent.motionPhase env rand dt s2 wp target all_agents landmarks)

/-- One iteration of the peer loop of `Agent.communicate`: skip self by id,
range-check against the applicable limit, record the tip-to-tip measurement,
merge the peer's unseen fragment (summarization disabled for landmarks),
log the received counts and append the single `True` to the connection
trace on the first qualifying peer.  Accumulator is `(agent, recorded)`. -/
def Agent.commStep (env : Env) (comm_dist lm_dist : ℚ) (summarize_pg : Bool)
    (acc : Agent × Bool) (agent : Peer) : Agent × Bool :=
  let s := acc.1
  let recorded := acc.2
  if agent.id = s.id then acc
  else
    let lim := if agent.is_landmark then lm_dist else comm_dist
    let dist := env.geom.dist2D (poseXY s.real_auv.pose) (poseXY agent.real_pose)
    if dist ≤ lim then
      let pg1 := env.measure s.pg s.real_auv.pose agent.real_pose agent.is_landmark
      let use_summary := summarize_pg && !agent.is_landmark
      let filled := env.fillIn pg1 agent.pg use_summary
      let s1 : Agent :=
        { s with pg := filled.1
                 received_data_verts :=
                   s.received_data_verts ++ [(s.time, (filled.2.1 : ℚ))]
                 received_data_edges :=
                   s.received_data_edges ++ [(s.time, (filled.2.2 : ℚ))] }
      if recorded then (s1, recorded)
      else ({ s1 with connection_trace := s1.connection_trace ++ [true] }, true)
    else acc

/-- The peer loop of `Agent.communicate` (a left fold in source order). -/
def Agent.commLoop (env : Env) (comm_dist lm_dist : ℚ) (summarize_pg : Bool) :
    List Peer → Agent × Bool → Agent × Bool
  | [], acc => acc
  | agent :: rest, acc =>
    Agent.commLoop env comm_dist lm_dist summarize_pg rest
      (Agent.commStep env comm_dist lm_dist summarize_pg acc agent)

/-- Phase one of `Agent.communicate`: the guarded peer loop ("quick exit
if we are not planned to communicate at all"). -/
def Agent.commPhase1 (env : Env) (s0 : Agent) (all_agents : List Peer)
    (summarize_pg : Bool) : Agent × Bool :=
  let comm_dist := s0.mission_plan.config.comm_range
  let lm_dist := s0.mission_plan.config.landmark_range
  if 0 < comm_dist then
    Agent.commLoop env comm_dist lm_dist summarize_pg all_agents (s0, false)
  else (s0, false)

/-- Phase two of `Agent.communicate`: append `False` to the connection
trace when no peer qualified; otherwise mark the current waypoint's
rendezvous flag, but only when the belief pose is within the waypoint's
uncertainty radius. -/
def Agent.commPhase2 (g : Geom) (s1 : Agent) (recorded : Bool) : Agent :=
  if recorded then
    match s1.mission_plan.get_current_wp with
    | none => s1
    | some wp =>
      if g.dist2D (poseXY s1.internal_auv.pose) (poseXY wp.pose) ≤
          wp.uncertainty_radius then
        { s1 with mission_plan := s1.mission_plan.mark_current_rendezvous wp }
      else s1
  else { s1 with connection_trace := s1.connection_trace ++ [false] }

/-- Phase three of `Agent.communicate`: when the trace holds more than two
entries and its last two differ, invoke the estimator's optimize operation,
and on success snap the belief vehicle to the corrected pose, record the
visualization point and discard the queued dubins plan. -/
def Agent.commPhase3 (env : Env) (summarize_pg recorded : Bool)
    (s2 : Agent) : Agent × CommEffects :=
  if 2 < s2.connection_trace.length then
    if listNeg1 s2.connection_trace ≠ listNeg2 s2.connection_trace then
      let opt := env.optimize s2.pg summarize_pg
      if opt.1 then
        let internal := s2.internal_auv.set_pose opt.2
        ({ s2 with internal_auv := internal
                   viz_optim_points := s2.viz_optim_points ++ [internal.pose]
                   current_dubins_points := [] },
         { optimizeCalls := 1, connected := recorded })
      else (s2, { optimizeCalls := 1, connected := recorded })
    else (s2, { optimizeCalls := 0, connected := recorded })
  else (s2, { optimizeCalls := 0, connected := recorded })

/-- `Agent.communicate(all_agents, summarize_pg)`: the three phases in
source order. -/
def Agent.communicate (env : Env) (s0 : Agent) (all_agents : List Peer)
    (summarize_pg : Bool) : Agent × CommEffects :=
  let looped := Agent.commPhase1 env s0 all_agents summarize_pg
  Agent.commPhase3 env summarize_pg looped.2
    (Agent.commPhase2 env.geom looped.1 looped.2)

/-- `Agent.distance_traveled_error(just_error)`: zero before ten seconds of
agent time; afterwards the 3-component pose discrepancy, divided by the
total distance traveled unless `just_error`. -/
def Agent.distance_traveled_error (g : Geom) (s : Agent)
    (just_error : Bool) : ℚ :=
  if s.time < 10 then 0
  else
    let final_error := g.dist3D s.real_auv.pose s.internal_auv.pose
    if just_error then final_error
    else final_error / s.real_auv.total_distance_traveled

/-- Python's `times, errs = zip(*pairs)`: unzips a pair list, raising
(ValueError) on the empty list. -/
def unzip2Strict (l : List (ℚ × ℚ)) : Except String (List ℚ × List ℚ) :=
  match l with
  | [] => Except.error "cannot unpack zip of an empty sequence"
  | _ => Except.ok (l.map Prod.fst, l.map Prod.snd)

/-- numpy's cumsum. -/
def cumsum (l : List ℚ) : List ℚ :=
  (l.foldl (fun acc x => (acc.1 ++ [acc.2 + x], acc.2 + x)) (([] : List ℚ), (0 : ℚ))).1

/-- The per-agent time-series block of `RunnableMission.calculate_stats`
(lines unpacking `real_errors` and `real_moved_dists`, cumulating the moved
distances and normalizing the errors by `distances_traveled + 0.000001`). -/
def agentTranslationalErrs (a : Agent) : Except String (List ℚ × List ℚ) := do
  let _p1 ← unzip2Strict a.real_errors
  let errs := _p1.2
  let p2 ← unzip2Strict a.real_moved_dists
  let times := p2.1
  let dists := p2.2
  let distances_traveled := cumsum dists
  let errsN := List.zipWith (fun e d => e / (d + 1 / 1000000)) errs distances_traveled
  pure (times, errsN)

/-- `float(agent.real_errors[-1][1])` of `calculate_stats`, raising
(IndexError) on an empty error list. -/
def finalTranslationalError (a : Agent) : Except String ℚ :=
  match a.real_errors.getLast? with
  | some p => Except.ok p.2
  | none => Except.error "list index out of range"

/-- The aggregation of `RunnableMission.calculate_stats` over `self.agents`
restricted to its error/moved-distance time-series and the final
translational errors (the coverage-polygon work delegates to the external
shapely library and does not touch these lists). -/
def calculate_stats_errs (agents : List Agent) :
    Except String (List (List ℚ × List ℚ) × List ℚ) := do
  let series ← agents.mapM agentTranslationalErrs
  let finals ← agents.mapM finalTranslationalError
  pure (series, finals)

/-! ## Concrete instances used by witnesses and counterexamples -/

/-- A concrete configuration (the defaults of the source's main block,
with a unit drift accumulation rate). -/
def demoConfig : MissionConfig :=
  { comm_range := 25
    landmark_range := 10
    turning_rad := 5
    uncertainty_accumulation_rate_k := 1
    heading_noise_degrees := 10
    swath := 25
    speed := 3 / 2
    rect_width := 100
    rect_height := 100 }

/-- An absolute value that kernel reduction can evaluate on concrete
rationals. -/
def ratAbs (x : ℚ) : ℚ := if x < 0 then -x else x

/-- A concrete geometry oracle (taxicab distances, rational stand-ins for
cos/sin/deg2rad). -/
def demoGeom : Geom :=
  { dist2D := fun p q => ratAbs (p.1 - q.1) + ratAbs (p.2 - q.2)
    dist3D := fun p q => ratAbs (p.x - q.x) + ratAbs (p.y - q.y) + ratAbs (p.h - q.h)
    cos := fun _ => 1
    sin := fun _ => 0
    deg2rad := fun d => d * 3141 / 180000 }

/-- A concrete vehicle dynamics oracle: the belief vehicle moves its
commanded distance and reports a fixed control pair; the ground-truth
vehicle integrates the drift it is handed. -/
def demoDyn : AUVDyn :=
  { stepInternal := fun a dt =>
      ({ a with last_moved_distance := a.forward_speed * dt
                total_distance_traveled :=
                  a.total_distance_traveled + a.forward_speed * dt }, 1, 0)
    stepReal := fun a args =>
      { a with pose :=
          { x := a.pose.x + args.drift_x
            y := a.pose.y + args.drift_y
            h := a.pose.h + args.drift_heading } } }

/-- A concrete environment whose optimize oracle always reports failure. -/
def demoEnv : Env :=
  { geom := demoGeom
    dyn := demoDyn
    dubins := fun _ _ _ => []
    measure := fun pg _ _ _ => pg
    fillIn := fun pg _ _ => (pg, 0, 0)
    optimize := fun _ _ => (false, ⟨0, 0, 0⟩) }

/-- A concrete environment whose optimize oracle always succeeds. -/
def demoEnvOk : Env :=
  { demoEnv with optimize := fun _ _ => (true, ⟨7, 8, 0⟩) }

/-- A concrete mission vehicle. -/
def demoAUV : AUV :=
  { auv_id := 0
    pose := ⟨0, 0, 0⟩
    target_threshold := 2
    forward_speed := 1
    auv_length := 1
    max_turn_angle := 1
    target := none
    cover_mode := false
    last_moved_distance := 0
    total_distance_traveled := 0 }

/-- A concrete rendezvous-eligible coverage waypoint. -/
def demoWp : TimedWaypoint :=
  { pose := ⟨10, 0, 0⟩
    time := 100
    rendezvous_happened := false
    idx_in_pattern := 1
    position_in_line := PositionInLine.last
    uncertainty_radius := 3 }

/-- A one-waypoint mission plan. -/
def demoPlan : MissionPlan :=
  { wps := [demoWp], cursor := 0, config := demoConfig }

/-- A drift model whose sampled drift angle is zero everywhere. -/
def demoDrift : DriftModel := fun _ _ => (0, 0, 0)

/-- A concrete mission agent. -/
def demoAgent : Agent :=
  Agent.init demoAUV ⟨0, []⟩ demoPlan (some demoDrift)

/-- A concrete landmark vehicle (zero forward speed). -/
def lmAUV : AUV := { demoAUV with auv_id := -1, forward_speed := 0 }

/-- A fresh pose graph for the landmark. -/
def lmPG : PoseGraph := ⟨-1, []⟩

/-- A concrete landmark agent. -/
def lmAgent : Agent := Agent.init lmAUV lmPG demoPlan none

/-! ## Loop invariants of the communicate peer loop -/

/-- The fields of the agent state that one peer-loop iteration never
touches (it only writes the pose graph, the received-data logs and the
connection trace). -/
theorem commStep_fields (env : Env) (cd ld : ℚ) (b : Bool)
    (acc : Agent × Bool) (a : Peer) :
    (Agent.commStep env cd ld b acc a).1.mission_plan = acc.1.mission_plan ∧
    (Agent.commStep env cd ld b acc a).1.internal_auv = acc.1.internal_auv ∧
    (Agent.commStep env cd ld b acc a).1.current_dubins_points =
      acc.1.current_dubins_points ∧
    (Agent.commStep env cd ld b acc a).1.viz_optim_points =
      acc.1.viz_optim_points ∧
    (Agent.commStep env cd ld b acc a).1.id = acc.1.id ∧
    (Agent.commStep env cd ld b acc a).1.time = acc.1.time ∧
    (Agent.commStep env cd ld b acc a).1.real_auv = acc.1.real_auv ∧
    (Agent.commStep env cd ld b acc a).1.is_landmark = acc.1.is_landmark := by
  cases hrec : acc.2 <;>
    by_cases h1 : a.id = acc.1.id <;>
    by_cases h2 : env.geom.dist2D (poseXY acc.1.real_auv.pose)
        (poseXY a.real_pose) ≤ (if a.is_landmark then ld else cd) <;>
    simp [Agent.commStep, h1, h2, hrec]

/-- The whole peer loop never touches those fields either. -/
theorem commLoop_fields (env : Env) (cd ld : ℚ) (b : Bool)
    (ps : List Peer) (acc : Agent × Bool) :
    (Agent.commLoop env cd ld b ps acc).1.mission_plan = acc.1.mission_plan ∧
    (Agent.commLoop env cd ld b ps acc).1.internal_auv = acc.1.internal_auv ∧
    (Agent.commLoop env cd ld b ps acc).1.current_dubins_points =
      acc.1.current_dubins_points ∧
    (Agent.commLoop env cd ld b ps acc).1.viz_optim_points =
      acc.1.viz_optim_points ∧
    (Agent.commLoop env cd ld b ps acc).1.id = acc.1.id ∧
    (Agent.commLoop env cd ld b ps acc).1.time = acc.1.time ∧
    (Agent.commLoop env cd ld b ps acc).1.real_auv = acc.1.real_auv ∧
    (Agent.commLoop env cd ld b ps acc).1.is_landmark = acc.1.is_landmark := by
  induction ps generalizing acc with
  | nil => simp [Agent.commLoop]
  | cons a rest ih =>
    have hs := commStep_fields env cd ld b acc a
    have hr := ih (Agent.commStep env cd ld b acc a)
    simp only [Agent.commLoop]
    exact ⟨hr.1.trans hs.1, hr.2.1.trans hs.2.1, hr.2.2.1.trans hs.2.2.1,
      hr.2.2.2.1.trans hs.2.2.2.1, hr.2.2.2.2.1.trans hs.2.2.2.2.1,
      hr.2.2.2.2.2.1.trans hs.2.2.2.2.2.1,
      hr.2.2.2.2.2.2.1.trans hs.2.2.2.2.2.2.1,
      hr.2.2.2.2.2.2.2.trans hs.2.2.2.2.2.2.2⟩

/-- One peer-loop iteration appends `[true]` to the connection trace when
it records the first connection, and leaves the trace alone otherwise; the
recorded flag never falls back to false. -/
theorem commStep_trace (env : Env) (cd ld : ℚ) (b : Bool)
    (acc : Agent × Bool) (a : Peer) :
    (Agent.commStep env cd ld b acc a).1.connection_trace =
      acc.1.connection_trace ++
        (if acc.2 = false ∧ (Agent.commStep env cd ld b acc a).2 = true
          then [true] else []) ∧
    (acc.2 = true → (Agent.commStep env cd ld b acc a).2 = true) := by
  cases hrec : acc.2 <;>
    by_cases h1 : a.id = acc.1.id <;>
    by_cases h2 : env.geom.dist2D (poseXY acc.1.real_auv.pose)
        (poseXY a.real_pose) ≤ (if a.is_landmark then ld else cd) <;>
    simp [Agent.commStep, h1, h2, hrec]

/-- The peer loop appends `[true]` to the connection trace exactly when it
flips the recorded flag from false to true. -/
theorem commLoop_trace (env : Env) (cd ld : ℚ) (b : Bool)
    (ps : List Peer) (acc : Agent × Bool) :
    (Agent.commLoop env cd ld b ps acc).1.connection_trace =
      acc.1.connection_trace ++
        (if acc.2 = false ∧ (Agent.commLoop env cd ld b ps acc).2 = true
          then [true] else []) ∧
    (acc.2 = true → (Agent.commLoop env cd ld b ps acc).2 = true) := by
  induction ps generalizing acc with
  | nil => simp [Agent.commLoop]
  | cons a rest ih =>
    have hs := commStep_trace env cd ld b acc a
    have hr := ih (Agent.commStep env cd ld b acc a)
    simp only [Agent.commLoop]
    constructor
    · rw [hr.1, hs.1]
      by_cases h0 : acc.2 = true
      · simp [h0, hs.2 h0, hr.2 (hs.2 h0)]
      · simp only [eq_false_of_ne_true h0]
        by_cases h1 : (Agent.commStep env cd ld b acc a).2 = true
        · simp [h1, hr.2 h1]
        · simp_all
    · intro h0
      exact hr.2 (hs.2 h0)

/-- Phase one: untouched fields and the trace shape, from the loop
invariants (or trivially in the no-communication quick exit). -/
theorem commPhase1_fields (env : Env) (s0 : Agent) (ps : List Peer) (b : Bool) :
    (Agent.commPhase1 env s0 ps b).1.mission_plan = s0.mission_plan ∧
    (Agent.commPhase1 env s0 ps b).1.internal_auv = s0.internal_auv ∧
    (Agent.commPhase1 env s0 ps b).1.current_dubins_points =
      s0.current_dubins_points ∧
    (Agent.commPhase1 env s0 ps b).1.viz_optim_points = s0.viz_optim_points ∧
    (Agent.commPhase1 env s0 ps b).1.id = s0.id ∧
    (Agent.commPhase1 env s0 ps b).1.time = s0.time ∧
    (Agent.commPhase1 env s0 ps b).1.real_auv = s0.real_auv ∧
    (Agent.commPhase1 env s0 ps b).1.is_landmark = s0.is_landmark ∧
    (Agent.commPhase1 env s0 ps b).1.connection_trace =
      s0.connection_trace ++
        (if (Agent.commPhase1 env s0 ps b).2 then [true] else []) := by
  unfold Agent.commPhase1
  by_cases h : 0 < s0.mission_plan.config.comm_range
  · simp only [h, if_true]
    refine ⟨(commLoop_fields _ _ _ _ _ _).1, (commLoop_fields _ _ _ _ _ _).2.1,
      (commLoop_fields _ _ _ _ _ _).2.2.1, (commLoop_fields _ _ _ _ _ _).2.2.2.1,
      (commLoop_fields _ _ _ _ _ _).2.2.2.2.1,
      (commLoop_fields _ _ _ _ _ _).2.2.2.2.2.1,
      (commLoop_fields _ _ _ _ _ _).2.2.2.2.2.2.1,
      (commLoop_fields _ _ _ _ _ _).2.2.2.2.2.2.2, ?_⟩
    have ht := (commLoop_trace env s0.mission_plan.config.comm_range
      s0.mission_plan.config.landmark_range b ps (s0, false)).1
    simp only at ht
    rw [ht]
    cases hb : (Agent.commLoop env s0.mission_plan.config.comm_range
        s0.mission_plan.config.landmark_range b ps (s0, false)).2 <;> simp [hb]
  · simp [h]

/-- Phase two: the trace gains `[false]` exactly when no connection was
recorded, and the mission plan is the only other field that can change. -/
theorem commPhase2_fields (g : Geom) (s1 : Agent) (recorded : Bool) :
    (Agent.commPhase2 g s1 recorded).internal_auv = s1.internal_auv ∧
    (Agent.commPhase2 g s1 recorded).current_dubins_points =
      s1.current_dubins_points ∧
    (Agent.commPhase2 g s1 recorded).viz_optim_points = s1.viz_optim_points ∧
    (Agent.commPhase2 g s1 recorded).pg = s1.pg ∧
    (Agent.commPhase2 g s1 recorded).time = s1.time ∧
    (Agent.commPhase2 g s1 recorded).real_auv = s1.real_auv ∧
    (Agent.commPhase2 g s1 recorded).connection_trace =
      s1.connection_trace ++ (if recorded then [] else [false]) := by
  cases recorded
  · simp [Agent.commPhase2]
  · cases h0 : s1.mission_plan.get_current_wp with
    | none => simp [Agent.commPhase2, h0]
    | some wp =>
      by_cases h1 : g.dist2D (poseXY s1.internal_auv.pose) (poseXY wp.pose) ≤
          wp.uncertainty_radius <;>
        simp [Agent.commPhase2, h0, h1]

/-- Phase three: the connection trace, pose graph and mission plan pass
through unchanged; optimize is consulted exactly when the trace holds more
than two entries whose last two differ. -/
theorem commPhase3_spec (env : Env) (b recorded : Bool) (s2 : Agent) :
    (Agent.commPhase3 env b recorded s2).1.connection_trace =
      s2.connection_trace ∧
    (Agent.commPhase3 env b recorded s2).1.pg = s2.pg ∧
    (Agent.commPhase3 env b recorded s2).1.mission_plan = s2.mission_plan ∧
    (Agent.commPhase3 env b recorded s2).2.connected = recorded ∧
    (Agent.commPhase3 env b recorded s2).2.optimizeCalls =
      (if 2 < s2.connection_trace.length ∧
          listNeg1 s2.connection_trace ≠ listNeg2 s2.connection_trace
        then 1 else 0) := by
  by_cases h1 : 2 < s2.connection_trace.length
  · by_cases h2 : listNeg1 s2.connection_trace ≠ listNeg2 s2.connection_trace
    · cases hopt : (env.optimize s2.pg b).1 <;>
        simp [Agent.commPhase3, h1, h2, hopt]
    · simp [Agent.commPhase3, h1, h2]
  · simp [Agent.commPhase3, h1]

/-- Phase three when the optimize oracle reports failure at the consulted
pose graph: the correction, the visualization point and the plan clearing
are all skipped. -/
theorem commPhase3_fail (env : Env) (b recorded : Bool) (s2 : Agent)
    (h : (env.optimize s2.pg b).1 = false) :
    (Agent.commPhase3 env b recorded s2).1.internal_auv = s2.internal_auv ∧
    (Agent.commPhase3 env b recorded s2).1.current_dubins_points =
      s2.current_dubins_points ∧
    (Agent.commPhase3 env b recorded s2).1.viz_optim_points =
      s2.viz_optim_points := by
  by_cases h1 : 2 < s2.connection_trace.length
  · by_cases h2 : listNeg1 s2.connection_trace ≠ listNeg2 s2.connection_trace
    · simp [Agent.commPhase3, h1, h2, h]
    · simp [Agent.commPhase3, h1, h2]
  · simp [Agent.commPhase3, h1]

/-- `Agent.communicate` appends exactly one entry to the connection trace:
this tick's connectivity, which is also reported in the effects record. -/
theorem communicate_trace (env : Env) (s : Agent) (ps : List Peer) (b : Bool) :
    (Agent.communicate env s ps b).1.connection_trace =
      s.connection_trace ++ [(Agent.communicate env s ps b).2.connected] := by
  unfold Agent.communicate
  have h1 := commPhase1_fields env s ps b
  have h2 := commPhase2_fields env.geom (Agent.commPhase1 env s ps b).1
    (Agent.commPhase1 env s ps b).2
  have h3 := commPhase3_spec env b (Agent.commPhase1 env s ps b).2
    (Agent.commPhase2 env.geom (Agent.commPhase1 env s ps b).1
      (Agent.commPhase1 env s ps b).2)
  rw [h3.1, h3.2.2.2.1, h2.2.2.2.2.2.2, h1.2.2.2.2.2.2.2.2]
  cases (Agent.commPhase1 env s ps b).2 <;> simp

/-- C1: in every `Agent.communicate` call the estimator's optimize
operation is invoked at most once, and it is invoked exactly when the
post-append connection trace has at least three entries whose last two
entries differ (a rising or falling connectivity edge); in particular it is
never invoked when this tick's connectivity equals the previous tick's. -/
theorem C1_optimize_on_transition (env : Env) (s : Agent) (ps : List Peer)
    (b : Bool) :
    (Agent.communicate env s ps b).2.optimizeCalls ≤ 1 ∧
    ((Agent.communicate env s ps b).2.optimizeCalls = 1 ↔
      3 ≤ (Agent.communicate env s ps b).1.connection_trace.length ∧
      listNeg1 (Agent.communicate env s ps b).1.connection_trace ≠
        listNeg2 (Agent.communicate env s ps b).1.connection_trace) := by
  unfold Agent.communicate
  have h3 := commPhase3_spec env b (Agent.commPhase1 env s ps b).2
    (Agent.commPhase2 env.geom (Agent.commPhase1 env s ps b).1
      (Agent.commPhase1 env s ps b).2)
  rw [h3.2.2.2.2, h3.1]
  constructor
  · split <;> simp
  · split <;> rename_i hcond
    · simpa using hcond
    · simpa using hcond

/-- C8: when the estimator's optimize operation reports failure at the pose
graph it is consulted with (which `communicate` leaves untouched by the
correction step), the whole correction is skipped: the belief vehicle, the
queued dubins plan and the optimization visualization log come out exactly
as they went in, and optimize was consulted at most this one time. -/
theorem C8_failed_optimize_is_noop (env : Env) (s : Agent) (ps : List Peer)
    (b : Bool)
    (hfail : (env.optimize (Agent.communicate env s ps b).1.pg b).1 = false) :
    (Agent.communicate env s ps b).1.internal_auv = s.internal_auv ∧
    (Agent.communicate env s ps b).1.current_dubins_points =
      s.current_dubins_points ∧
    (Agent.communicate env s ps b).1.viz_optim_points = s.viz_optim_points ∧
    (Agent.communicate env s ps b).2.optimizeCalls ≤ 1 := by
  have h1 := commPhase1_fields env s ps b
  have h2 := commPhase2_fields env.geom (Agent.commPhase1 env s ps b).1
    (Agent.commPhase1 env s ps b).2
  have h3 := commPhase3_spec env b (Agent.commPhase1 env s ps b).2
    (Agent.commPhase2 env.geom (Agent.commPhase1 env s ps b).1
      (Agent.commPhase1 env s ps b).2)
  have hpg : (Agent.communicate env s ps b).1.pg =
      (Agent.commPhase2 env.geom (Agent.commPhase1 env s ps b).1
        (Agent.commPhase1 env s ps b).2).pg := by
    unfold Agent.communicate
    exact h3.2.1
  rw [hpg] at hfail
  have hf := commPhase3_fail env b (Agent.commPhase1 env s ps b).2
    (Agent.commPhase2 env.geom (Agent.commPhase1 env s ps b).1
      (Agent.commPhase1 env s ps b).2) hfail
  unfold Agent.communicate
  refine ⟨?_, ?_, ?_, ?_⟩
  · rw [hf.1, h2.1, h1.2.1]
  · rw [hf.2.1, h2.2.1, h1.2.2.1]
  · rw [hf.2.2, h2.2.2.1, h1.2.2.2.1]
  · rw [h3.2.2.2.2]
    split <;> simp

/-! ## Invariants of the update sub-steps -/

/-- The mission-sync block never touches the vehicles, the pose graph, the
drift model, the waypoint list or the shared configuration; it can only
move the cursor and write its own logs. -/
theorem missionSync_fields (g : Geom) (s : Agent) :
    (Agent.missionSync g s).1.real_auv = s.real_auv ∧
    (Agent.missionSync g s).1.internal_auv = s.internal_auv ∧
    (Agent.missionSync g s).1.pg = s.pg ∧
    (Agent.missionSync g s).1.drift_model = s.drift_model ∧
    (Agent.missionSync g s).1.time = s.time ∧
    (Agent.missionSync g s).1.is_landmark = s.is_landmark ∧
    (Agent.missionSync g s).1.mission_plan.wps = s.mission_plan.wps ∧
    (Agent.missionSync g s).1.mission_plan.config = s.mission_plan.config ∧
    (Agent.missionSync g s).1.real_errors = s.real_errors ∧
    (Agent.missionSync g s).1.real_moved_dists = s.real_moved_dists ∧
    (Agent.missionSync g s).1.viz_optim_points = s.viz_optim_points ∧
    (Agent.missionSync g s).1.connection_trace = s.connection_trace := by
  unfold Agent.missionSync
  cases h0 : s.mission_plan.get_current_wp with
  | none =>
    cases h1 : s.mission_plan.visit_current_wp.get_current_wp <;>
      simp only [h0, h1] <;> simp [MissionPlan.visit_current_wp]
  | some wp0 =>
    by_cases h1 : g.dist2D (poseXY s.internal_auv.pose) (poseXY wp0.pose) ≤
        s.internal_auv.target_threshold
    · by_cases h2 : wpAdvanceCond s.time wp0
      · cases h3 : s.mission_plan.visit_current_wp.get_current_wp <;>
          simp only [h0, h1, h2, h3, if_true, if_false] <;>
          simp [h1, h2, MissionPlan.visit_current_wp]
      · simp [h0, h1, h2]
    · simp [h0, h1]

/-- Mission sync at the target when the scheduled time has passed or a
rendezvous-eligible rendezvous happened: the cursor advances once and the
queued dubins plan is discarded; the continuation carries the stale
distance to the old waypoint when a next waypoint exists. -/
theorem missionSync_advance (g : Geom) (s : Agent) (wp0 : TimedWaypoint)
    (h0 : s.mission_plan.get_current_wp = some wp0)
    (hat : g.dist2D (poseXY s.internal_auv.pose) (poseXY wp0.pose) ≤
      s.internal_auv.target_threshold)
    (hcond : wpAdvanceCond s.time wp0) :
    (Agent.missionSync g s).1.mission_plan.cursor = s.mission_plan.cursor + 1 ∧
    (Agent.missionSync g s).1.current_dubins_points = [] ∧
    ((Agent.missionSync g s).2 = none ∨
      ∃ wp1, (Agent.missionSync g s).2 =
        some (wp1, g.dist2D (poseXY s.internal_auv.pose) (poseXY wp0.pose))) := by
  unfold Agent.missionSync
  cases h3 : s.mission_plan.visit_current_wp.get_current_wp with
  | none =>
    simp only [h0, hat, hcond, h3, if_true, if_false]
    simp [MissionPlan.visit_current_wp]
  | some wp1 =>
    simp only [h0, hat, hcond, h3, if_true, if_false]
    simp [MissionPlan.visit_current_wp]

/-- Mission sync at the target when the agent must wait: the mission plan
and the queued plan are untouched and the continuation keeps the current
waypoint. -/
theorem missionSync_wait (g : Geom) (s : Agent) (wp0 : TimedWaypoint)
    (h0 : s.mission_plan.get_current_wp = some wp0)
    (hat : g.dist2D (poseXY s.internal_auv.pose) (poseXY wp0.pose) ≤
      s.internal_auv.target_threshold)
    (hcond : ¬ wpAdvanceCond s.time wp0) :
    (Agent.missionSync g s).1.mission_plan = s.mission_plan ∧
    (Agent.missionSync g s).1.current_dubins_points = s.current_dubins_points ∧
    (Agent.missionSync g s).2 =
      some (wp0, g.dist2D (poseXY s.internal_auv.pose) (poseXY wp0.pose)) := by
  unfold Agent.missionSync
  simp [h0, hat, hcond]

/-- Path planning in the near branch (stale distance below the arrival
threshold plus one half): steer straight at the waypoint, agent unchanged. -/
theorem pathPlanning_close (env : Env) (s : Agent) (wp : TimedWaypoint)
    (dist : ℚ) (h : dist < s.internal_auv.target_threshold + 1 / 2) :
    Agent.pathPlanning env s wp dist = some (s, poseXY wp.pose) := by
  unfold Agent.pathPlanning
  rw [if_pos h]

/-- Path planning never touches the vehicles, the pose graph, the mission
plan or the logs other than its own plan/visualization lists. -/
theorem pathPlanning_fields (env : Env) (s : Agent) (wp : TimedWaypoint)
    (dist : ℚ) (out : Agent × (ℚ × ℚ))
    (h : Agent.pathPlanning env s wp dist = some out) :
    out.1.real_auv = s.real_auv ∧
    out.1.internal_auv = s.internal_auv ∧
    out.1.pg = s.pg ∧
    out.1.mission_plan = s.mission_plan ∧
    out.1.drift_model = s.drift_model ∧
    out.1.time = s.time ∧
    out.1.is_landmark = s.is_landmark ∧
    out.1.real_errors = s.real_errors ∧
    out.1.real_moved_dists = s.real_moved_dists ∧
    out.1.viz_optim_points = s.viz_optim_points ∧
    out.1.connection_trace = s.connection_trace := by
  unfold Agent.pathPlanning at h
  by_cases hclose : dist < s.internal_auv.target_threshold + 1 / 2
  · rw [if_pos hclose] at h
    cases h
    simp
  · rw [if_neg hclose] at h
    by_cases hlen : s.current_dubins_points.length = 0
    · rw [if_pos hlen] at h
      simp only [] at h
      split at h
      · exact Option.noConfusion h
      · split at h
        · exact Option.noConfusion h
        · cases h
          simp
    · rw [if_neg hlen] at h
      simp only [] at h
      split at h
      · exact Option.noConfusion h
      · split at h
        · exact Option.noConfusion h
        · cases h
          simp

/-- The motion phase leaves the mission plan, the queued dubins plan, the
time and the connectivity records unchanged. -/
theorem motionPhase_fields (env : Env) (rand dt : ℚ) (s : Agent)
    (wp : TimedWaypoint) (target : ℚ × ℚ) (ps ls : List Peer) :
    (Agent.motionPhase env rand dt s wp target ps ls).1.mission_plan =
      s.mission_plan ∧
    (Agent.motionPhase env rand dt s wp target ps ls).1.current_dubins_points =
      s.current_dubins_points ∧
    (Agent.motionPhase env rand dt s wp target ps ls).1.time = s.time ∧
    (Agent.motionPhase env rand dt s wp target ps ls).1.is_landmark =
      s.is_landmark ∧
    (Agent.motionPhase env rand dt s wp target ps ls).1.viz_optim_points =
      s.viz_optim_points ∧
    (Agent.motionPhase env rand dt s wp target ps ls).1.connection_trace =
      s.connection_trace ∧
    (Agent.motionPhase env rand dt s wp target ps ls).1.drift_model =
      s.drift_model := by
  simp [Agent.motionPhase]

/-! ## C3: cursor advance at the target -/

/-- C3: in `Agent.update`, when a current waypoint exists and the belief
pose is within the arrival threshold of it, the mission cursor advances in
that tick if and only if the post-increment time has reached the waypoint's
scheduled time or the waypoint's rendezvous flag is set with a pattern
index in the rendezvous-eligible set (`wpAdvanceCond`); on advance the
queued dubins plan is cleared, and without the condition both the mission
plan and the queued plan are untouched. -/
theorem C3_cursor_advance (env : Env) (dt : ℚ) (s0 : Agent)
    (ps ls : List Peer) (r : ℚ) (wp0 : TimedWaypoint)
    (hlm : s0.is_landmark = false)
    (hwp : s0.mission_plan.get_current_wp = some wp0)
    (hat : env.geom.dist2D (poseXY s0.internal_auv.pose) (poseXY wp0.pose) ≤
      s0.internal_auv.target_threshold) :
    ∃ s1 eff, Agent.update env dt s0 ps ls r = some (s1, eff) ∧
      (s1.mission_plan.cursor = s0.mission_plan.cursor + 1 ↔
        wpAdvanceCond (s0.time + dt) wp0) ∧
      (wpAdvanceCond (s0.time + dt) wp0 → s1.current_dubins_points = []) ∧
      (¬ wpAdvanceCond (s0.time + dt) wp0 →
        s1.mission_plan = s0.mission_plan ∧
        s1.current_dubins_points = s0.current_dubins_points) := by
  have hwp' : ({ s0 with time := s0.time + dt } : Agent).mission_plan.get_current_wp
      = some wp0 := hwp
  have hat' : env.geom.dist2D
      (poseXY ({ s0 with time := s0.time + dt } : Agent).internal_auv.pose)
      (poseXY wp0.pose) ≤
      ({ s0 with time := s0.time + dt } : Agent).internal_auv.target_threshold := hat
  unfold Agent.update
  simp only []
  rw [if_neg (show ¬ (({ s0 with time := s0.time + dt } : Agent).is_landmark = true)
    from by simp [hlm])]
  by_cases hcond : wpAdvanceCond (s0.time + dt) wp0
  · have hadv := missionSync_advance env.geom { s0 with time := s0.time + dt }
      wp0 hwp' hat' hcond
    rcases hms : Agent.missionSync env.geom { s0 with time := s0.time + dt }
      with ⟨sA, o⟩
    rw [hms] at hadv
    rcases hadv with ⟨hcur, hdub, hcont⟩
    rcases hcont with hnone | ⟨wp1, hsome⟩
    · simp only at hnone
      subst hnone
      refine ⟨sA, UpdateEffects.nothing, rfl, ?_, fun _ => hdub, fun hn => absurd hcond hn⟩
      simp only at hcur
      rw [hcur]
      exact iff_of_true rfl hcond
    · simp only at hsome
      subst hsome
      have hthr : env.geom.dist2D
          (poseXY ({ s0 with time := s0.time + dt } : Agent).internal_auv.pose)
          (poseXY wp0.pose) < sA.internal_auv.target_threshold + 1 / 2 := by
        have hia := (missionSync_fields env.geom { s0 with time := s0.time + dt }).2.1
        rw [hms] at hia
        simp only at hia
        rw [hia]
        exact lt_of_le_of_lt hat' (by linarith)
      simp only [pathPlanning_close env sA wp1 _ hthr]
      have hmf := motionPhase_fields env r dt sA wp1 (poseXY wp1.pose) ps ls
      refine ⟨(Agent.motionPhase env r dt sA wp1 (poseXY wp1.pose) ps ls).1,
        (Agent.motionPhase env r dt sA wp1 (poseXY wp1.pose) ps ls).2, rfl, ?_,
        fun _ => ?_, fun hn => absurd hcond hn⟩
      · simp only at hcur
        rw [hmf.1, hcur]
        exact iff_of_true rfl hcond
      · rw [hmf.2.1, hdub]
  · have hw := missionSync_wait env.geom { s0 with time := s0.time + dt }
      wp0 hwp' hat' hcond
    rcases hms : Agent.missionSync env.geom { s0 with time := s0.time + dt }
      with ⟨sA, o⟩
    rw [hms] at hw
    rcases hw with ⟨hmp, hdub, hcont⟩
    simp only at hmp hdub hcont
    subst hcont
    have hthr : env.geom.dist2D
        (poseXY ({ s0 with time := s0.time + dt } : Agent).internal_auv.pose)
        (poseXY wp0.pose) < sA.internal_auv.target_threshold + 1 / 2 := by
      have hia := (missionSync_fields env.geom { s0 with time := s0.time + dt }).2.1
      rw [hms] at hia
      simp only at hia
      rw [hia]
      exact lt_of_le_of_lt hat' (by linarith)
    simp only [pathPlanning_close env sA wp0 _ hthr]
    have hmf := motionPhase_fields env r dt sA wp0 (poseXY wp0.pose) ps ls
    refine ⟨(Agent.motionPhase env r dt sA wp0 (poseXY wp0.pose) ps ls).1,
      (Agent.motionPhase env r dt sA wp0 (poseXY wp0.pose) ps ls).2, rfl, ?_,
      fun hc => absurd hc hcond, fun _ => ?_⟩
    · rw [hmf.1, hmp]
      exact iff_of_false (by simp) hcond
    · exact ⟨hmf.1.trans hmp, hmf.2.1.trans hdub⟩

/-- The concrete waypoint for the C3 witness: close to the start, not yet
scheduled, not rendezvous-eligible. -/
def c3Wp : TimedWaypoint :=
  { demoWp with pose := ⟨1, 0, 0⟩, idx_in_pattern := 2 }

/-- The concrete agent for the C3 witness. -/
def c3Agent : Agent :=
  { demoAgent with mission_plan := { wps := [c3Wp], cursor := 0, config := demoConfig } }

/-- Witness for C3 at a concrete scenario (at the target, waiting). -/
theorem C3_cursor_advance_witness :
    c3Agent.is_landmark = false ∧
    c3Agent.mission_plan.get_current_wp = some c3Wp ∧
    demoEnv.geom.dist2D (poseXY c3Agent.internal_auv.pose) (poseXY c3Wp.pose) ≤
      c3Agent.internal_auv.target_threshold ∧
    (∃ s1 eff, Agent.update demoEnv 1 c3Agent [] [] 0 = some (s1, eff) ∧
      (s1.mission_plan.cursor = c3Agent.mission_plan.cursor + 1 ↔
        wpAdvanceCond (c3Agent.time + 1) c3Wp) ∧
      (wpAdvanceCond (c3Agent.time + 1) c3Wp → s1.current_dubins_points = []) ∧
      (¬ wpAdvanceCond (c3Agent.time + 1) c3Wp →
        s1.mission_plan = c3Agent.mission_plan ∧
        s1.current_dubins_points = c3Agent.current_dubins_points)) :=
  ⟨by decide, by decide,
    by norm_num [demoEnv, demoGeom, ratAbs, poseXY, c3Agent, c3Wp, demoAgent,
      Agent.init, demoAUV, demoWp, demoPlan, demoConfig],
    C3_cursor_advance demoEnv 1 c3Agent [] [] 0 c3Wp (by decide) (by decide)
      (by norm_num [demoEnv, demoGeom, ratAbs, poseXY, c3Agent, c3Wp, demoAgent,
        Agent.init, demoAUV, demoWp, demoPlan, demoConfig])⟩

/-! ## C2: the rendezvous flag -/

/-- Phase two either leaves the waypoint list alone, or — only when
connected, with a current waypoint whose position is within its uncertainty
radius of the belief pose — overwrites exactly the cursor entry with its
rendezvous flag set. -/
theorem commPhase2_wps (g : Geom) (s1 : Agent) (recorded : Bool) :
    (Agent.commPhase2 g s1 recorded).mission_plan.wps = s1.mission_plan.wps ∨
    (recorded = true ∧ ∃ wp0, s1.mission_plan.get_current_wp = some wp0 ∧
      g.dist2D (poseXY s1.internal_auv.pose) (poseXY wp0.pose) ≤
        wp0.uncertainty_radius ∧
      (Agent.commPhase2 g s1 recorded).mission_plan.wps =
        s1.mission_plan.wps.set s1.mission_plan.cursor
          { wp0 with rendezvous_happened := true }) := by
  cases recorded
  · left
    simp [Agent.commPhase2]
  · cases h0 : s1.mission_plan.get_current_wp with
    | none =>
      left
      simp [Agent.commPhase2, h0]
    | some wp0 =>
      by_cases h1 : g.dist2D (poseXY s1.internal_auv.pose) (poseXY wp0.pose) ≤
          wp0.uncertainty_radius
      · right
        exact ⟨rfl, wp0, rfl, h1,
          by simp [Agent.commPhase2, h0, h1, MissionPlan.mark_current_rendezvous]⟩
      · left
        simp [Agent.commPhase2, h0, h1]

/-- C2: a waypoint's rendezvous flag can flip to true in `Agent.communicate`
only when the agent was connected to at least one peer this tick, the
waypoint is the one under the mission cursor, and the belief pose is within
that waypoint's uncertainty radius of its position; and `Agent.update`
never changes the waypoint list at all, so no other agent operation sets
the flag. -/
theorem C2_rendezvous_flag :
    (∀ (env : Env) (s : Agent) (ps : List Peer) (b : Bool) (i : ℕ)
        (wp1 : TimedWaypoint),
      (Agent.communicate env s ps b).1.mission_plan.wps.get? i = some wp1 →
      wp1.rendezvous_happened = true →
      (s.mission_plan.wps.get? i).map TimedWaypoint.rendezvous_happened =
        some false →
      ((Agent.communicate env s ps b).2.connected = true ∧
        i = s.mission_plan.cursor ∧
        ∃ wp0, s.mission_plan.get_current_wp = some wp0 ∧
          env.geom.dist2D (poseXY s.internal_auv.pose) (poseXY wp0.pose) ≤
            wp0.uncertainty_radius ∧
          wp1 = { wp0 with rendezvous_happened := true })) ∧
    (∀ (env : Env) (dt : ℚ) (s : Agent) (ps ls : List Peer) (r : ℚ)
        (out : Agent × UpdateEffects),
      Agent.update env dt s ps ls r = some out →
      out.1.mission_plan.wps = s.mission_plan.wps) := by
  constructor
  · intro env s ps b i wp1 hget hflag horig
    have hmp1 : (Agent.commPhase1 env s ps b).1.mission_plan = s.mission_plan :=
      (commPhase1_fields env s ps b).1
    have hia1 : (Agent.commPhase1 env s ps b).1.internal_auv = s.internal_auv :=
      (commPhase1_fields env s ps b).2.1
    have h3 := commPhase3_spec env b (Agent.commPhase1 env s ps b).2
      (Agent.commPhase2 env.geom (Agent.commPhase1 env s ps b).1
        (Agent.commPhase1 env s ps b).2)
    have hcomm : (Agent.communicate env s ps b).1.mission_plan =
        (Agent.commPhase2 env.geom (Agent.commPhase1 env s ps b).1
          (Agent.commPhase1 env s ps b).2).mission_plan := by
      unfold Agent.communicate
      exact h3.2.2.1
    have hconn : (Agent.communicate env s ps b).2.connected =
        (Agent.commPhase1 env s ps b).2 := by
      unfold Agent.communicate
      exact h3.2.2.2.1
    rw [hcomm] at hget
    have hwpseq : (Agent.commPhase1 env s ps b).1.mission_plan.wps =
        s.mission_plan.wps := by rw [hmp1]
    have hcureq : (Agent.commPhase1 env s ps b).1.mission_plan.cursor =
        s.mission_plan.cursor := by rw [hmp1]
    rcases commPhase2_wps env.geom (Agent.commPhase1 env s ps b).1
        (Agent.commPhase1 env s ps b).2 with hsame | ⟨hrec, wp0, hwp, hd, hwps⟩
    · rw [hsame, hwpseq] at hget
      rw [hget] at horig
      simp [hflag] at horig
    · rw [hwps, hwpseq, hcureq] at hget
      rw [hmp1] at hwp
      rw [hia1] at hd
      have hlt : s.mission_plan.cursor < s.mission_plan.wps.length := by
        by_contra hge
        rw [MissionPlan.get_current_wp, List.get?_eq_none.mpr
          (le_of_not_lt hge)] at hwp
        exact Option.noConfusion hwp
      by_cases hi : i = s.mission_plan.cursor
      · subst hi
        rw [List.get?_set_eq_of_lt _ hlt] at hget
        cases hget
        rw [hconn, hrec]
        exact ⟨rfl, rfl, wp0, hwp, hd, rfl⟩
      · rw [List.get?_set_ne _ _ (fun hc => hi hc.symm)] at hget
        rw [hget] at horig
        simp [hflag] at horig
  · intro env dt s ps ls r out hup
    unfold Agent.update at hup
    simp only [] at hup
    by_cases hlm : ({ s with time := s.time + dt } : Agent).is_landmark = true
    · rw [if_pos hlm] at hup
      cases hup
      rfl
    · rw [if_neg hlm] at hup
      rcases hms : Agent.missionSync env.geom { s with time := s.time + dt }
        with ⟨sA, o⟩
      have hwps : sA.mission_plan.wps = s.mission_plan.wps := by
        have := (missionSync_fields env.geom { s with time := s.time + dt }).2.2.2.2.2.2.1
        rw [hms] at this
        exact this
      rw [hms] at hup
      cases o with
      | none =>
        simp only [] at hup
        cases hup
        exact hwps
      | some wd =>
        rcases wd with ⟨wp, dist⟩
        simp only [] at hup
        cases hpp : Agent.pathPlanning env sA wp dist with
        | none =>
          rw [hpp] at hup
          exact Option.noConfusion hup
        | some pr =>
          rcases pr with ⟨s2, target⟩
          rw [hpp] at hup
          simp only [] at hup
          cases hup
          have hmf := (motionPhase_fields env r dt s2 wp target ps ls).1
          have hpf := (pathPlanning_fields env sA wp dist (s2, target) hpp).2.2.2.1
          calc (Agent.motionPhase env r dt s2 wp target ps ls).1.mission_plan.wps
              = s2.mission_plan.wps := by rw [hmf]
            _ = sA.mission_plan.wps := by rw [hpf]
            _ = s.mission_plan.wps := hwps

/-- The concrete waypoint for the C2 witness: at distance 2 from the
belief pose, within its uncertainty radius 3. -/
def c2Wp : TimedWaypoint := { demoWp with pose := ⟨1, 1, 0⟩ }

/-- The concrete agent for the C2 witness. -/
def c2Agent : Agent :=
  { demoAgent with mission_plan := { wps := [c2Wp], cursor := 0, config := demoConfig } }

/-- A concrete peer within communication range of the C2 agent. -/
def c2Peer : Peer :=
  { id := 5, pg := ⟨5, []⟩, is_landmark := false, real_pose := ⟨1, 0, 0⟩ }

/-- Witness for C2 at a concrete connected rendezvous tick and a concrete
landmark update. -/
theorem C2_rendezvous_flag_witness :
    ((Agent.communicate demoEnv c2Agent [c2Peer] true).1.mission_plan.wps.get? 0 =
        some { c2Wp with rendezvous_happened := true } ∧
      (c2Agent.mission_plan.wps.get? 0).map TimedWaypoint.rendezvous_happened =
        some false ∧
      ((Agent.communicate demoEnv c2Agent [c2Peer] true).2.connected = true ∧
        0 = c2Agent.mission_plan.cursor ∧
        ∃ wp0, c2Agent.mission_plan.get_current_wp = some wp0 ∧
          demoEnv.geom.dist2D (poseXY c2Agent.internal_auv.pose) (poseXY wp0.pose) ≤
            wp0.uncertainty_radius ∧
          ({ c2Wp with rendezvous_happened := true } : TimedWaypoint) =
            { wp0 with rendezvous_happened := true })) ∧
    (Agent.update demoEnv 1 lmAgent [] [] 0 =
        some ({ lmAgent with time := lmAgent.time + 1 }, UpdateEffects.nothing) ∧
      ({ lmAgent with time := lmAgent.time + 1 } : Agent).mission_plan.wps =
        lmAgent.mission_plan.wps) := by
  have hget : (Agent.communicate demoEnv c2Agent [c2Peer] true).1.mission_plan.wps.get? 0 =
      some { c2Wp with rendezvous_happened := true } := by
    norm_num [Agent.communicate, Agent.commPhase1, Agent.commLoop, Agent.commStep,
      Agent.commPhase2, Agent.commPhase3, MissionPlan.get_current_wp,
      MissionPlan.mark_current_rendezvous, listNeg1, listNeg2, demoEnv, demoGeom,
      ratAbs, poseXY, c2Agent, c2Wp, c2Peer, demoAgent, Agent.init, demoAUV,
      demoWp, demoPlan, demoConfig]
  have hup : Agent.update demoEnv 1 lmAgent [] [] 0 =
      some ({ lmAgent with time := lmAgent.time + 1 }, UpdateEffects.nothing) := rfl
  exact ⟨⟨hget, by decide,
      C2_rendezvous_flag.1 demoEnv c2Agent [c2Peer] true 0 _ hget rfl (by decide)⟩,
    hup, C2_rendezvous_flag.2 demoEnv 1 lmAgent [] [] 0 _ hup⟩

/-! ## C9: landmark agents -/

/-- C9: an agent whose real vehicle has zero forward speed is constructed
as a landmark with exactly one odometry pose appended to its estimator at
construction, and every `Agent.update` call on a landmark returns
immediately after advancing the time, mutating nothing else (in particular
the ground-truth vehicle is untouched and no further odometry pose is ever
appended). -/
theorem C9_landmark_inert :
    (∀ (real_auv : AUV) (pg : PoseGraph) (mp : MissionPlan)
        (dm : Option DriftModel),
      real_auv.forward_speed = 0 →
        (Agent.init real_auv pg mp dm).is_landmark = true ∧
        (Agent.init real_auv pg mp dm).pg.odom_poses =
          pg.odom_poses ++ [real_auv.pose]) ∧
    (∀ (env : Env) (dt : ℚ) (s : Agent) (ps ls : List Peer) (r : ℚ),
      s.is_landmark = true →
        Agent.update env dt s ps ls r =
          some ({ s with time := s.time + dt }, UpdateEffects.nothing)) := by
  constructor
  · intro real_auv pg mp dm h
    constructor
    · simp [Agent.init, h]
    · simp [Agent.init, h, PoseGraph.append_odom_pose]
  · intro env dt s ps ls r h
    unfold Agent.update
    simp only []
    rw [if_pos (show ({ s with time := s.time + dt } : Agent).is_landmark = true
      from h)]

/-- Witness for C9: a concrete landmark construction and update. -/
theorem C9_landmark_inert_witness :
    (lmAUV.forward_speed = 0 ∧
      (Agent.init lmAUV lmPG demoPlan none).is_landmark = true ∧
      (Agent.init lmAUV lmPG demoPlan none).pg.odom_poses =
        lmPG.odom_poses ++ [lmAUV.pose]) ∧
    (lmAgent.is_landmark = true ∧
      Agent.update demoEnv 2 lmAgent [] [] 0 =
        some ({ lmAgent with time := lmAgent.time + 2 }, UpdateEffects.nothing)) :=
  ⟨⟨by decide, C9_landmark_inert.1 lmAUV lmPG demoPlan none (by decide)⟩,
    ⟨by decide, C9_landmark_inert.2 demoEnv 2 lmAgent [] [] 0 (by decide)⟩⟩

/-! ## C10: the error gate at ten seconds -/

/-- C10: `distance_traveled_error` returns zero for any agent whose time is
below ten, regardless of the pose discrepancy and of the `just_error`
argument; from ten onward it returns the raw 3-component pose error, or
that error divided by the total distance traveled when `just_error` is
false. -/
theorem C10_error_gate (g : Geom) (s : Agent) (b : Bool) :
    (s.time < 10 → Agent.distance_traveled_error g s b = 0) ∧
    (¬ s.time < 10 →
      Agent.distance_traveled_error g s b =
        (if b then g.dist3D s.real_auv.pose s.internal_auv.pose
          else g.dist3D s.real_auv.pose s.internal_auv.pose /
            s.real_auv.total_distance_traveled)) := by
  constructor
  · intro h
    simp [Agent.distance_traveled_error, h]
  · intro h
    cases b <;> simp [Agent.distance_traveled_error, h]

/-- Witness for C10: the demo agent at time zero. -/
theorem C10_error_gate_witness :
    demoAgent.time < 10 ∧
    Agent.distance_traveled_error demoGeom demoAgent true = 0 :=
  ⟨by decide, (C10_error_gate demoGeom demoAgent true).1 (by decide)⟩

/-! ## C8 witness -/

/-- The concrete agent for the C8 witness: its trace ends on a rising edge,
so this communicate call consults the (always failing) optimize oracle. -/
def c8Agent : Agent := { demoAgent with connection_trace := [false, true] }

/-- Witness for C8: with the always-failing optimize oracle, a communicate
call on a transition changes none of the correction targets. -/
theorem C8_failed_optimize_is_noop_witness :
    (demoEnv.optimize (Agent.communicate demoEnv c8Agent [] true).1.pg true).1 =
      false ∧
    ((Agent.communicate demoEnv c8Agent [] true).1.internal_auv =
        c8Agent.internal_auv ∧
      (Agent.communicate demoEnv c8Agent [] true).1.current_dubins_points =
        c8Agent.current_dubins_points ∧
      (Agent.communicate demoEnv c8Agent [] true).1.viz_optim_points =
        c8Agent.viz_optim_points ∧
      (Agent.communicate demoEnv c8Agent [] true).2.optimizeCalls ≤ 1) :=
  ⟨rfl, C8_failed_optimize_is_noop demoEnv c8Agent [] true rfl⟩

/-! ## C4: drift gating and magnitude -/

/-- The `alone` flag is false exactly when some listed peer other than self
(by pose-graph id) is a non-landmark within communication range of the
ground-truth position. -/
theorem scanPeers_alone (g : Geom) (pid : ℤ) (pos : ℚ × ℚ)
    (cfg : MissionConfig) (psl : List Peer) (acc : Bool × Bool) :
    ((Agent.scanPeers g pid pos cfg psl acc).1 = false ↔
      (acc.1 = false ∨ ∃ p ∈ psl, p.pg.pg_id ≠ pid ∧ p.is_landmark = false ∧
        g.dist2D pos (poseXY p.real_pose) ≤ cfg.comm_range)) := by
  induction psl generalizing acc with
  | nil => simp [Agent.scanPeers]
  | cons a rest ih =>
    have hstep : ∃ acc2 : Bool × Bool,
        Agent.scanPeers g pid pos cfg (a :: rest) acc =
          Agent.scanPeers g pid pos cfg rest acc2 ∧
        (acc2.1 = false ↔ (acc.1 = false ∨ (a.pg.pg_id ≠ pid ∧
          a.is_landmark = false ∧
          g.dist2D pos (poseXY a.real_pose) ≤ cfg.comm_range))) := by
      by_cases h1 : a.pg.pg_id = pid
      · exact ⟨acc, by simp [Agent.scanPeers, h1], by simp [h1]⟩
      · cases h3 : a.is_landmark
        · by_cases h2 : g.dist2D pos (poseXY a.real_pose) ≤ cfg.comm_range
          · exact ⟨(false, acc.2), by simp [Agent.scanPeers, h1, h3, h2],
              by simp [h1, h3, h2]⟩
          · exact ⟨acc, by simp [Agent.scanPeers, h1, h3, h2],
              by simp [h1, h3, h2]⟩
        · by_cases h2 : g.dist2D pos (poseXY a.real_pose) ≤ cfg.landmark_range
          · exact ⟨(acc.1, false), by simp [Agent.scanPeers, h1, h3, h2],
              by simp [h3]⟩
          · exact ⟨acc, by simp [Agent.scanPeers, h1, h3, h2], by simp [h3]⟩
    rcases hstep with ⟨acc2, hrw, hiff⟩
    rw [hrw, ih, hiff]
    constructor
    · rintro ((h | hqa) | ⟨p, hp, hq⟩)
      · exact Or.inl h
      · exact Or.inr ⟨a, List.mem_cons_self a rest, hqa⟩
      · exact Or.inr ⟨p, List.mem_cons_of_mem a hp, hq⟩
    · rintro (h | ⟨p, hp, hq⟩)
      · exact Or.inl (Or.inl h)
      · rcases List.mem_cons.mp hp with rfl | hp2
        · exact Or.inl (Or.inr hq)
        · exact Or.inr ⟨p, hp2, hq⟩

/-- The drift triple only reads the drift model, the ground-truth pose and
the shared configuration. -/
theorem driftTriple_congr (g : Geom) (rand : ℚ) (s s' : Agent)
    (cover alone : Bool) (moved : ℚ)
    (h1 : s'.drift_model = s.drift_model)
    (h2 : s'.real_auv = s.real_auv)
    (h3 : s'.mission_plan.config = s.mission_plan.config) :
    Agent.driftTriple g rand s' cover alone moved =
      Agent.driftTriple g rand s cover alone moved := by
  unfold Agent.driftTriple
  rw [h1, h2, h3]

/-- Outside the cover-and-alone-with-drift-model case the drift triple is
identically zero. -/
theorem driftTriple_zero (g : Geom) (rand : ℚ) (s : Agent)
    (cover alone : Bool) (moved : ℚ)
    (h : ¬ (cover = true ∧ alone = true ∧ s.drift_model.isSome = true)) :
    Agent.driftTriple g rand s cover alone moved = (0, 0, 0) := by
  unfold Agent.driftTriple
  cases hdm : s.drift_model with
  | none => rfl
  | some dm =>
    have hca : ¬ (cover && alone) = true := by
      intro hc
      rcases Bool.and_eq_true_iff.mp hc with ⟨hc1, hc2⟩
      exact h ⟨hc1, hc2, by simp [hdm]⟩
    simp only []
    rw [if_neg hca]

/-- In the cover-and-alone case with a drift model, the drift triple is the
sampled-angle components scaled by moved distance times the accumulation
rate, with the bounded heading noise. -/
theorem driftTriple_some (g : Geom) (rand : ℚ) (s : Agent)
    (cover alone : Bool) (moved : ℚ) (f : DriftModel)
    (hf : s.drift_model = some f) (hc : cover = true) (ha : alone = true) :
    Agent.driftTriple g rand s cover alone moved =
      ((moved * s.mission_plan.config.uncertainty_accumulation_rate_k) *
          g.cos ((f s.real_auv.pose.x s.real_auv.pose.y).2.2),
        (moved * s.mission_plan.config.uncertainty_accumulation_rate_k) *
          g.sin ((f s.real_auv.pose.x s.real_auv.pose.y).2.2),
        g.deg2rad ((rand * 2 - 1) * s.mission_plan.config.heading_noise_degrees)) := by
  unfold Agent.driftTriple
  rw [hf]
  subst hc
  subst ha
  rfl

/-- C4: in every `Agent.update` tick that reaches the motion phase (the
effects carry ground-truth update arguments), the `alone` flag is false
exactly when another mission (non-landmark) agent is within communication
range of the ground-truth pose, the `cover` flag is the active waypoint's
last-in-line test, the positional drift vector and heading noise are zero
unless cover-and-alone with a configured drift model, in which case the
drift components equal (moved distance × accumulation rate) times the
cosine/sine of the sampled drift angle — so a zero accumulation rate makes
the injected positional drift exactly zero. -/
theorem C4_drift_gating (env : Env) (dt : ℚ) (s : Agent) (ps ls : List Peer)
    (r : ℚ) (s1 : Agent) (eff : UpdateEffects) (args : RealArgs)
    (hrun : Agent.update env dt s ps ls r = some (s1, eff))
    (hargs : eff.realArgs = some args) :
    (eff.alone = false ↔ ∃ p ∈ ps ++ ls, p.pg.pg_id ≠ s.pg.pg_id ∧
      p.is_landmark = false ∧
      env.geom.dist2D (poseXY s.real_auv.pose) (poseXY p.real_pose) ≤
        s.mission_plan.config.comm_range) ∧
    (∃ wp, eff.activeWp = some wp ∧ eff.cover = Agent.coverFlag wp) ∧
    (∀ f, s.drift_model = some f → eff.cover = true → eff.alone = true →
      args.drift_x = (eff.moved_dist *
          s.mission_plan.config.uncertainty_accumulation_rate_k) *
        env.geom.cos ((f s.real_auv.pose.x s.real_auv.pose.y).2.2) ∧
      args.drift_y = (eff.moved_dist *
          s.mission_plan.config.uncertainty_accumulation_rate_k) *
        env.geom.sin ((f s.real_auv.pose.x s.real_auv.pose.y).2.2) ∧
      eff.heading_noise = env.geom.deg2rad ((r * 2 - 1) *
        s.mission_plan.config.heading_noise_degrees)) ∧
    (¬ (eff.cover = true ∧ eff.alone = true ∧ s.drift_model.isSome = true) →
      args.drift_x = 0 ∧ args.drift_y = 0 ∧ eff.heading_noise = 0) ∧
    (s.mission_plan.config.uncertainty_accumulation_rate_k = 0 →
      args.drift_x = 0 ∧ args.drift_y = 0) := by
  unfold Agent.update at hrun
  simp only [] at hrun
  by_cases hlm : ({ s with time := s.time + dt } : Agent).is_landmark = true
  · rw [if_pos hlm] at hrun
    cases hrun
    exact absurd hargs (by simp [UpdateEffects.nothing])
  · rw [if_neg hlm] at hrun
    rcases hms : Agent.missionSync env.geom { s with time := s.time + dt }
      with ⟨sA, o⟩
    rw [hms] at hrun
    cases o with
    | none =>
      simp only [] at hrun
      cases hrun
      exact absurd hargs (by simp [UpdateEffects.nothing])
    | some wd =>
      rcases wd with ⟨wp, dist⟩
      simp only [] at hrun
      cases hpp : Agent.pathPlanning env sA wp dist with
      | none =>
        rw [hpp] at hrun
        exact Option.noConfusion hrun
      | some pr =>
        rcases pr with ⟨s2, target⟩
        rw [hpp] at hrun
        simp only [] at hrun
        have hpair := Option.some.inj hrun
        have heff : eff = (Agent.motionPhase env r dt s2 wp target ps ls).2 := by
          rw [hpair]
        have hmsf := missionSync_fields env.geom { s with time := s.time + dt }
        rw [hms] at hmsf
        simp only [] at hmsf
        have hpf := pathPlanning_fields env sA wp dist (s2, target) hpp
        have hreal : s2.real_auv = s.real_auv := hpf.1.trans hmsf.1
        have hpg : s2.pg = s.pg := hpf.2.2.1.trans hmsf.2.2.1
        have hdm : s2.drift_model = s.drift_model :=
          hpf.2.2.2.2.1.trans hmsf.2.2.2.1
        have hcfg : s2.mission_plan.config = s.mission_plan.config := by
          rw [hpf.2.2.2.1]
          exact hmsf.2.2.2.2.2.2.2.1
        have hcover : eff.cover = Agent.coverFlag wp := by
          rw [heff]; exact rfl
        have halone : eff.alone =
            (Agent.scanPeers env.geom s2.pg.pg_id (poseXY s2.real_auv.pose)
              s2.mission_plan.config (ps ++ ls) (true, true)).1 := by
          rw [heff]; exact rfl
        have hwpa : eff.activeWp = some wp := by rw [heff]; exact rfl
        have hmoved : eff.moved_dist =
            (env.dyn.stepInternal
              (s2.internal_auv.set_target target (Agent.coverFlag wp))
              dt).1.last_moved_distance := by
          rw [heff]; exact rfl
        have hnoise : eff.heading_noise =
            (Agent.driftTriple env.geom r s2 (Agent.coverFlag wp)
              (Agent.scanPeers env.geom s2.pg.pg_id (poseXY s2.real_auv.pose)
                s2.mission_plan.config (ps ++ ls) (true, true)).1
              (env.dyn.stepInternal
                (s2.internal_auv.set_target target (Agent.coverFlag wp))
                dt).1.last_moved_distance).2.2 := by
          rw [heff]; exact rfl
        have hargsLit : eff.realArgs = some
            { dt := dt
              turn_direction := (env.dyn.stepInternal
                (s2.internal_auv.set_target target (Agent.coverFlag wp)) dt).2.1
              turn_amount := (env.dyn.stepInternal
                (s2.internal_auv.set_target target (Agent.coverFlag wp)) dt).2.2
              drift_x := (Agent.driftTriple env.geom r s2 (Agent.coverFlag wp)
                (Agent.scanPeers env.geom s2.pg.pg_id (poseXY s2.real_auv.pose)
                  s2.mission_plan.config (ps ++ ls) (true, true)).1
                (env.dyn.stepInternal
                  (s2.internal_auv.set_target target (Agent.coverFlag wp))
                  dt).1.last_moved_distance).1
              drift_y := (Agent.driftTriple env.geom r s2 (Agent.coverFlag wp)
                (Agent.scanPeers env.geom s2.pg.pg_id (poseXY s2.real_auv.pose)
                  s2.mission_plan.config (ps ++ ls) (true, true)).1
                (env.dyn.stepInternal
                  (s2.internal_auv.set_target target (Agent.coverFlag wp))
                  dt).1.last_moved_distance).2.1
              drift_heading := 0
              cover := Agent.coverFlag wp } := by
          rw [heff]; exact rfl
        have hA : args =
            { dt := dt
              turn_direction := (env.dyn.stepInternal
                (s2.internal_auv.set_target target (Agent.coverFlag wp)) dt).2.1
              turn_amount := (env.dyn.stepInternal
                (s2.internal_auv.set_target target (Agent.coverFlag wp)) dt).2.2
              drift_x := (Agent.driftTriple env.geom r s2 (Agent.coverFlag wp)
                (Agent.scanPeers env.geom s2.pg.pg_id (poseXY s2.real_auv.pose)
                  s2.mission_plan.config (ps ++ ls) (true, true)).1
                (env.dyn.stepInternal
                  (s2.internal_auv.set_target target (Agent.coverFlag wp))
                  dt).1.last_moved_distance).1
              drift_y := (Agent.driftTriple env.geom r s2 (Agent.coverFlag wp)
                (Agent.scanPeers env.geom s2.pg.pg_id (poseXY s2.real_auv.pose)
                  s2.mission_plan.config (ps ++ ls) (true, true)).1
                (env.dyn.stepInternal
                  (s2.internal_auv.set_target target (Agent.coverFlag wp))
                  dt).1.last_moved_distance).2.1
              drift_heading := 0
              cover := Agent.coverFlag wp } := by
          rw [hargsLit] at hargs
          exact (Option.some.inj hargs).symm
        refine ⟨?_, ⟨wp, hwpa, hcover⟩, ?_, ?_, ?_⟩
        · rw [halone, hpg, hreal, hcfg, scanPeers_alone]
          constructor
          · rintro (h | h)
            · exact absurd h (by simp)
            · exact h
          · intro h
            exact Or.inr h
        · intro f hf hc ha
          have hf2 : s2.drift_model = some f := by rw [hdm, hf]
          have hc2 : Agent.coverFlag wp = true := hcover ▸ hc
          have ha2 : (Agent.scanPeers env.geom s2.pg.pg_id
              (poseXY s2.real_auv.pose) s2.mission_plan.config (ps ++ ls)
              (true, true)).1 = true := halone ▸ ha
          have hd := driftTriple_some env.geom r s2 (Agent.coverFlag wp) _
            ((env.dyn.stepInternal
              (s2.internal_auv.set_target target (Agent.coverFlag wp))
              dt).1.last_moved_distance) f hf2 hc2 ha2
          refine ⟨?_, ?_, ?_⟩
          · rw [hA]
            simp only []
            rw [hd, hmoved, hcfg, hreal]
          · rw [hA]
            simp only []
            rw [hd, hmoved, hcfg, hreal]
          · rw [hnoise, hd, hcfg]
        · intro hno
          have hno2 : ¬ (Agent.coverFlag wp = true ∧
              (Agent.scanPeers env.geom s2.pg.pg_id (poseXY s2.real_auv.pose)
                s2.mission_plan.config (ps ++ ls) (true, true)).1 = true ∧
              s2.drift_model.isSome = true) := by
            rintro ⟨a1, a2, a3⟩
            exact hno ⟨hcover.trans a1, halone.trans a2, by rw [← hdm]; exact a3⟩
          have hz := driftTriple_zero env.geom r s2 (Agent.coverFlag wp) _
            ((env.dyn.stepInternal
              (s2.internal_auv.set_target target (Agent.coverFlag wp))
              dt).1.last_moved_distance) hno2
          refine ⟨?_, ?_, ?_⟩
          · rw [hA]
            simp only []
            rw [hz]
          · rw [hA]
            simp only []
            rw [hz]
          · rw [hnoise, hz]
        · intro hk
          by_cases hcase : Agent.coverFlag wp = true ∧
              (Agent.scanPeers env.geom s2.pg.pg_id (poseXY s2.real_auv.pose)
                s2.mission_plan.config (ps ++ ls) (true, true)).1 = true ∧
              s2.drift_model.isSome = true
          · rcases hcase with ⟨a1, a2, a3⟩
            obtain ⟨f, hf2⟩ := Option.isSome_iff_exists.mp a3
            have hd := driftTriple_some env.geom r s2 (Agent.coverFlag wp) _
              ((env.dyn.stepInternal
                (s2.internal_auv.set_target target (Agent.coverFlag wp))
                dt).1.last_moved_distance) f hf2 a1 a2
            have hk2 : s2.mission_plan.config.uncertainty_accumulation_rate_k = 0 := by
              rw [hcfg, hk]
            constructor
            · rw [hA]
              simp only []
              rw [hd, hk2]
              simp
            · rw [hA]
              simp only []
              rw [hd, hk2]
              simp
          · have hz := driftTriple_zero env.geom r s2 (Agent.coverFlag wp) _
              ((env.dyn.stepInternal
                (s2.internal_auv.set_target target (Agent.coverFlag wp))
                dt).1.last_moved_distance) hcase
            constructor
            · rw [hA]
              simp only []
              rw [hz]
            · rw [hA]
              simp only []
              rw [hz]

/-- The concrete coverage waypoint for the C4 witness (far away, so the
agent drives and drifts). -/
def c4Wp : TimedWaypoint := { demoWp with pose := ⟨30, 0, 0⟩ }

/-- The concrete agent for the C4 witness, with a queued dubins sample. -/
def c4Agent : Agent :=
  { demoAgent with
      mission_plan := { wps := [c4Wp], cursor := 0, config := demoConfig }
      current_dubins_points := [⟨20, 0, 0⟩] }

/-- The expected belief vehicle after the C4 witness tick. -/
def c4Internal : AUV :=
  { auv_id := 0, pose := ⟨0, 0, 349 / 2000⟩, target_threshold := 2
    forward_speed := 1, auv_length := 1, max_turn_angle := 1
    target := some (20, 0), cover_mode := true
    last_moved_distance := 1, total_distance_traveled := 1 }

/-- The expected agent state after the C4 witness tick. -/
def c4Out : Agent :=
  { c4Agent with
      time := 1
      real_auv := { demoAUV with pose := ⟨1, 0, 0⟩ }
      internal_auv := c4Internal
      pg := ⟨0, [⟨0, 0, 349 / 2000⟩]⟩
      real_errors := [(1, 1)]
      real_moved_dists := [(1, 1)] }

/-- The expected ground-truth update arguments of the C4 witness tick. -/
def c4Args : RealArgs :=
  { dt := 1, turn_direction := 1, turn_amount := 0, drift_x := 1, drift_y := 0
    drift_heading := 0, cover := true }

/-- The expected effects record of the C4 witness tick. -/
def c4Eff : UpdateEffects :=
  { realArgs := some c4Args, internalArgs := some 1
    heading_noise := 349 / 2000, cover := true, alone := true
    no_landmarks := true, moved_dist := 1, activeWp := some c4Wp }

/-- Witness for C4 at a concrete drifting coverage tick. -/
theorem C4_drift_gating_witness :
    Agent.update demoEnv 1 c4Agent [] [] 1 = some (c4Out, c4Eff) ∧
    c4Eff.realArgs = some c4Args ∧
    ((c4Eff.alone = false ↔ ∃ p ∈ ([] : List Peer) ++ [], p.pg.pg_id ≠ c4Agent.pg.pg_id ∧
      p.is_landmark = false ∧
      demoEnv.geom.dist2D (poseXY c4Agent.real_auv.pose) (poseXY p.real_pose) ≤
        c4Agent.mission_plan.config.comm_range) ∧
    (∃ wp, c4Eff.activeWp = some wp ∧ c4Eff.cover = Agent.coverFlag wp) ∧
    (∀ f, c4Agent.drift_model = some f → c4Eff.cover = true → c4Eff.alone = true →
      c4Args.drift_x = (c4Eff.moved_dist *
          c4Agent.mission_plan.config.uncertainty_accumulation_rate_k) *
        demoEnv.geom.cos ((f c4Agent.real_auv.pose.x c4Agent.real_auv.pose.y).2.2) ∧
      c4Args.drift_y = (c4Eff.moved_dist *
          c4Agent.mission_plan.config.uncertainty_accumulation_rate_k) *
        demoEnv.geom.sin ((f c4Agent.real_auv.pose.x c4Agent.real_auv.pose.y).2.2) ∧
      c4Eff.heading_noise = demoEnv.geom.deg2rad ((1 * 2 - 1) *
        c4Agent.mission_plan.config.heading_noise_degrees)) ∧
    (¬ (c4Eff.cover = true ∧ c4Eff.alone = true ∧ c4Agent.drift_model.isSome = true) →
      c4Args.drift_x = 0 ∧ c4Args.drift_y = 0 ∧ c4Eff.heading_noise = 0) ∧
    (c4Agent.mission_plan.config.uncertainty_accumulation_rate_k = 0 →
      c4Args.drift_x = 0 ∧ c4Args.drift_y = 0)) := by
  have hrun : Agent.update demoEnv 1 c4Agent [] [] 1 = some (c4Out, c4Eff) := by
    norm_num [Agent.update, Agent.missionSync, Agent.pathPlanning, dubinsSkip,
      Agent.motionPhase, Agent.coverFlag, Agent.scanPeers, Agent.driftTriple,
      AUV.set_target, AUV.set_heading, AUV.set_pose, PoseGraph.append_odom_pose,
      MissionPlan.get_current_wp, MissionPlan.visit_current_wp, wpAdvanceCond,
      UpdateEffects.nothing, c4Agent, c4Wp, c4Out, c4Eff, c4Args, c4Internal,
      demoEnv, demoGeom, demoDyn, demoDrift, ratAbs, poseXY, Agent.init,
      demoAgent, demoAUV, demoWp, demoPlan, demoConfig]
  exact ⟨hrun, rfl,
    C4_drift_gating demoEnv 1 c4Agent [] [] 1 c4Out c4Eff c4Args hrun rfl⟩

/-! ## C5: what the ground-truth vehicle's update receives -/

/-- C5 (amended): in every `Agent.update` tick that reaches the motion
phase, the ground-truth vehicle's update receives the tick length, the
control pair obtained from the belief vehicle's integration, the drift
vector, and a drift heading that is always exactly zero; the belief
vehicle's motion integration receives only the tick length (no drift
quantity); the drawn heading-noise term is instead added to ground truth's
heading when it is copied onto the belief vehicle (absent a landmark fix). -/
theorem C5_ground_truth_update_args (env : Env) (dt : ℚ) (s : Agent)
    (ps ls : List Peer) (r : ℚ) (s1 : Agent) (eff : UpdateEffects)
    (args : RealArgs)
    (hrun : Agent.update env dt s ps ls r = some (s1, eff))
    (hargs : eff.realArgs = some args) :
    args.dt = dt ∧
    args.drift_heading = 0 ∧
    eff.internalArgs = some dt ∧
    (∃ target, args.turn_direction =
        (env.dyn.stepInternal (s.internal_auv.set_target target eff.cover) dt).2.1 ∧
      args.turn_amount =
        (env.dyn.stepInternal (s.internal_auv.set_target target eff.cover) dt).2.2 ∧
      eff.moved_dist =
        (env.dyn.stepInternal (s.internal_auv.set_target target eff.cover)
          dt).1.last_moved_distance) ∧
    (eff.no_landmarks = true →
      s1.internal_auv.pose.h =
        (env.dyn.stepReal s.real_auv args).pose.h + eff.heading_noise) := by
  unfold Agent.update at hrun
  simp only [] at hrun
  by_cases hlm : ({ s with time := s.time + dt } : Agent).is_landmark = true
  · rw [if_pos hlm] at hrun
    cases hrun
    exact absurd hargs (by simp [UpdateEffects.nothing])
  · rw [if_neg hlm] at hrun
    rcases hms : Agent.missionSync env.geom { s with time := s.time + dt }
      with ⟨sA, o⟩
    rw [hms] at hrun
    cases o with
    | none =>
      simp only [] at hrun
      cases hrun
      exact absurd hargs (by simp [UpdateEffects.nothing])
    | some wd =>
      rcases wd with ⟨wp, dist⟩
      simp only [] at hrun
      cases hpp : Agent.pathPlanning env sA wp dist with
      | none =>
        rw [hpp] at hrun
        exact Option.noConfusion hrun
      | some pr =>
        rcases pr with ⟨s2, target⟩
        rw [hpp] at hrun
        simp only [] at hrun
        have hpair := Option.some.inj hrun
        have heff : eff = (Agent.motionPhase env r dt s2 wp target ps ls).2 := by
          rw [hpair]
        have hs1 : s1 = (Agent.motionPhase env r dt s2 wp target ps ls).1 := by
          rw [hpair]
        have hmsf := missionSync_fields env.geom { s with time := s.time + dt }
        rw [hms] at hmsf
        simp only [] at hmsf
        have hpf := pathPlanning_fields env sA wp dist (s2, target) hpp
        have hreal : s2.real_auv = s.real_auv := hpf.1.trans hmsf.1
        have hia : s2.internal_auv = s.internal_auv := hpf.2.1.trans hmsf.2.1
        have hcover : eff.cover = Agent.coverFlag wp := by
          rw [heff]; exact rfl
        have hnl : eff.no_landmarks =
            (Agent.scanPeers env.geom s2.pg.pg_id (poseXY s2.real_auv.pose)
              s2.mission_plan.config (ps ++ ls) (true, true)).2 := by
          rw [heff]; exact rfl
        have hmoved : eff.moved_dist =
            (env.dyn.stepInternal
              (s2.internal_auv.set_target target (Agent.coverFlag wp))
              dt).1.last_moved_distance := by
          rw [heff]; exact rfl
        have hnoise : eff.heading_noise =
            (Agent.driftTriple env.geom r s2 (Agent.coverFlag wp)
              (Agent.scanPeers env.geom s2.pg.pg_id (poseXY s2.real_auv.pose)
                s2.mission_plan.config (ps ++ ls) (true, true)).1
              (env.dyn.stepInternal
                (s2.internal_auv.set_target target (Agent.coverFlag wp))
                dt).1.last_moved_distance).2.2 := by
          rw [heff]; exact rfl
        have hargsLit : eff.realArgs = some
            { dt := dt
              turn_direction := (env.dyn.stepInternal
                (s2.internal_auv.set_target target (Agent.coverFlag wp)) dt).2.1
              turn_amount := (env.dyn.stepInternal
                (s2.internal_auv.set_target target (Agent.coverFlag wp)) dt).2.2
              drift_x := (Agent.driftTriple env.geom r s2 (Agent.coverFlag wp)
                (Agent.scanPeers env.geom s2.pg.pg_id (poseXY s2.real_auv.pose)
                  s2.mission_plan.config (ps ++ ls) (true, true)).1
                (env.dyn.stepInternal
                  (s2.internal_auv.set_target target (Agent.coverFlag wp))
                  dt).1.last_moved_distance).1
              drift_y := (Agent.driftTriple env.geom r s2 (Agent.coverFlag wp)
                (Agent.scanPeers env.geom s2.pg.pg_id (poseXY s2.real_auv.pose)
                  s2.mission_plan.config (ps ++ ls) (true, true)).1
                (env.dyn.stepInternal
                  (s2.internal_auv.set_target target (Agent.coverFlag wp))
                  dt).1.last_moved_distance).2.1
              drift_heading := 0
              cover := Agent.coverFlag wp } := by
          rw [heff]; exact rfl
        have hA : args =
            { dt := dt
              turn_direction := (env.dyn.stepInternal
                (s2.internal_auv.set_target target (Agent.coverFlag wp)) dt).2.1
              turn_amount := (env.dyn.stepInternal
                (s2.internal_auv.set_target target (Agent.coverFlag wp)) dt).2.2
              drift_x := (Agent.driftTriple env.geom r s2 (Agent.coverFlag wp)
                (Agent.scanPeers env.geom s2.pg.pg_id (poseXY s2.real_auv.pose)
                  s2.mission_plan.config (ps ++ ls) (true, true)).1
                (env.dyn.stepInternal
                  (s2.internal_auv.set_target target (Agent.coverFlag wp))
                  dt).1.last_moved_distance).1
              drift_y := (Agent.driftTriple env.geom r s2 (Agent.coverFlag wp)
                (Agent.scanPeers env.geom s2.pg.pg_id (poseXY s2.real_auv.pose)
                  s2.mission_plan.config (ps ++ ls) (true, true)).1
                (env.dyn.stepInternal
                  (s2.internal_auv.set_target target (Agent.coverFlag wp))
                  dt).1.last_moved_distance).2.1
              drift_heading := 0
              cover := Agent.coverFlag wp } := by
          rw [hargsLit] at hargs
          exact (Option.some.inj hargs).symm
        refine ⟨by rw [hA], by rw [hA], by rw [heff]; exact rfl, ?_, ?_⟩
        · refine ⟨target, ?_, ?_, ?_⟩
          · rw [hcover, ← hia, hA]
          · rw [hcover, ← hia, hA]
          · rw [hcover, ← hia, hmoved]
        · intro h
          have hscans2 : (Agent.scanPeers env.geom s2.pg.pg_id
              (poseXY s2.real_auv.pose) s2.mission_plan.config (ps ++ ls)
              (true, true)).2 = true := by
            rw [← hnl]; exact h
          have hkey : (Agent.motionPhase env r dt s2 wp target ps ls).1.internal_auv =
              ((env.dyn.stepInternal
                (s2.internal_auv.set_target target (Agent.coverFlag wp))
                dt).1).set_heading
                ((env.dyn.stepReal s2.real_auv
                  { dt := dt
                    turn_direction := (env.dyn.stepInternal
                      (s2.internal_auv.set_target target (Agent.coverFlag wp))
                      dt).2.1
                    turn_amount := (env.dyn.stepInternal
                      (s2.internal_auv.set_target target (Agent.coverFlag wp))
                      dt).2.2
                    drift_x := (Agent.driftTriple env.geom r s2
                      (Agent.coverFlag wp)
                      (Agent.scanPeers env.geom s2.pg.pg_id
                        (poseXY s2.real_auv.pose) s2.mission_plan.config
                        (ps ++ ls) (true, true)).1
                      (env.dyn.stepInternal
                        (s2.internal_auv.set_target target (Agent.coverFlag wp))
                        dt).1.last_moved_distance).1
                    drift_y := (Agent.driftTriple env.geom r s2
                      (Agent.coverFlag wp)
                      (Agent.scanPeers env.geom s2.pg.pg_id
                        (poseXY s2.real_auv.pose) s2.mission_plan.config
                        (ps ++ ls) (true, true)).1
                      (env.dyn.stepInternal
                        (s2.internal_auv.set_target target (Agent.coverFlag wp))
                        dt).1.last_moved_distance).2.1
                    drift_heading := 0
                    cover := Agent.coverFlag wp }).pose.h +
                  (Agent.driftTriple env.geom r s2 (Agent.coverFlag wp)
                    (Agent.scanPeers env.geom s2.pg.pg_id
                      (poseXY s2.real_auv.pose) s2.mission_plan.config
                      (ps ++ ls) (true, true)).1
                    (env.dyn.stepInternal
                      (s2.internal_auv.set_target target (Agent.coverFlag wp))
                      dt).1.last_moved_distance).2.2) := by
            unfold Agent.motionPhase
            simp only []
            rw [if_pos hscans2]
          rw [hs1, hkey, AUV.set_heading]
          simp only []
          rw [← hnoise, ← hA, hreal]

/-- The concrete coverage waypoint for the C5 scenario. -/
def c5Wp : TimedWaypoint := { demoWp with pose := ⟨30, 0, 0⟩ }

/-- The concrete agent for the C5 scenario. -/
def c5Agent : Agent :=
  { demoAgent with
      mission_plan := { wps := [c5Wp], cursor := 0, config := demoConfig }
      current_dubins_points := [⟨20, 0, 0⟩] }

/-- The expected belief vehicle after the C5 tick. -/
def c5Internal : AUV :=
  { auv_id := 0, pose := ⟨0, 0, 349 / 2000⟩, target_threshold := 2
    forward_speed := 1, auv_length := 1, max_turn_angle := 1
    target := some (20, 0), cover_mode := true
    last_moved_distance := 1, total_distance_traveled := 1 }

/-- The expected agent state after the C5 tick. -/
def c5Out : Agent :=
  { c5Agent with
      time := 1
      real_auv := { demoAUV with pose := ⟨1, 0, 0⟩ }
      internal_auv := c5Internal
      pg := ⟨0, [⟨0, 0, 349 / 2000⟩]⟩
      real_errors := [(1, 1)]
      real_moved_dists := [(1, 1)] }

/-- The expected ground-truth update arguments of the C5 tick: note the
zero drift heading. -/
def c5Args : RealArgs :=
  { dt := 1, turn_direction := 1, turn_amount := 0, drift_x := 1, drift_y := 0
    drift_heading := 0, cover := true }

/-- The expected effects record of the C5 tick: note the nonzero drawn
heading noise. -/
def c5Eff : UpdateEffects :=
  { realArgs := some c5Args, internalArgs := some 1
    heading_noise := 349 / 2000, cover := true, alone := true
    no_landmarks := true, moved_dist := 1, activeWp := some c5Wp }

/-- C5 counterexample: at a concrete drifting coverage tick, the drawn
heading-noise term is 349/2000 ≠ 0, yet the ground-truth vehicle's update
receives drift heading 0 — the claim that it receives the drawn
heading-noise term is false. -/
theorem C5_counterexample :
    (Agent.update demoEnv 1 c5Agent [] [] 1).map
        (fun out => (out.2.heading_noise,
          out.2.realArgs.map RealArgs.drift_heading)) =
      some (349 / 2000, some 0) ∧
    (349 / 2000 : ℚ) ≠ 0 := by
  have hrun : Agent.update demoEnv 1 c5Agent [] [] 1 = some (c5Out, c5Eff) := by
    norm_num [Agent.update, Agent.missionSync, Agent.pathPlanning, dubinsSkip,
      Agent.motionPhase, Agent.coverFlag, Agent.scanPeers, Agent.driftTriple,
      AUV.set_target, AUV.set_heading, AUV.set_pose, PoseGraph.append_odom_pose,
      MissionPlan.get_current_wp, MissionPlan.visit_current_wp, wpAdvanceCond,
      UpdateEffects.nothing, c5Agent, c5Wp, c5Out, c5Eff, c5Args, c5Internal,
      demoEnv, demoGeom, demoDyn, demoDrift, ratAbs, poseXY, Agent.init,
      demoAgent, demoAUV, demoWp, demoPlan, demoConfig]
  constructor
  · rw [hrun]
    norm_num [c5Eff, c5Args]
  · norm_num

/-- Witness for the amended C5 theorem at the concrete C5 tick. -/
theorem C5_ground_truth_update_args_witness :
    Agent.update demoEnv 1 c5Agent [] [] 1 = some (c5Out, c5Eff) ∧
    c5Eff.realArgs = some c5Args ∧
    (c5Args.dt = 1 ∧
      c5Args.drift_heading = 0 ∧
      c5Eff.internalArgs = some 1 ∧
      (∃ target, c5Args.turn_direction =
          (demoEnv.dyn.stepInternal
            (c5Agent.internal_auv.set_target target c5Eff.cover) 1).2.1 ∧
        c5Args.turn_amount =
          (demoEnv.dyn.stepInternal
            (c5Agent.internal_auv.set_target target c5Eff.cover) 1).2.2 ∧
        c5Eff.moved_dist =
          (demoEnv.dyn.stepInternal
            (c5Agent.internal_auv.set_target target c5Eff.cover)
            1).1.last_moved_distance) ∧
      (c5Eff.no_landmarks = true →
        c5Out.internal_auv.pose.h =
          (demoEnv.dyn.stepReal c5Agent.real_auv c5Args).pose.h +
            c5Eff.heading_noise)) := by
  have hrun : Agent.update demoEnv 1 c5Agent [] [] 1 = some (c5Out, c5Eff) := by
    norm_num [Agent.update, Agent.missionSync, Agent.pathPlanning, dubinsSkip,
      Agent.motionPhase, Agent.coverFlag, Agent.scanPeers, Agent.driftTriple,
      AUV.set_target, AUV.set_heading, AUV.set_pose, PoseGraph.append_odom_pose,
      MissionPlan.get_current_wp, MissionPlan.visit_current_wp, wpAdvanceCond,
      UpdateEffects.nothing, c5Agent, c5Wp, c5Out, c5Eff, c5Args, c5Internal,
      demoEnv, demoGeom, demoDyn, demoDrift, ratAbs, poseXY, Agent.init,
      demoAgent, demoAUV, demoWp, demoPlan, demoConfig]
  exact ⟨hrun, rfl,
    C5_ground_truth_update_args demoEnv 1 c5Agent [] [] 1 c5Out c5Eff c5Args
      hrun rfl⟩

/-! ## C6: the dubins lead-sample dropping loop -/

/-- A nonempty sample list never becomes empty in the dropping loop. -/
theorem dubinsSkip_ne (g : Geom) (pos : ℚ × ℚ) (thr : ℚ) :
    ∀ pts : List Pose, pts ≠ [] → dubinsSkip g pos thr pts ≠ [] := by
  intro pts
  induction pts with
  | nil => simp
  | cons p rest ih =>
    cases rest with
    | nil =>
      intro _
      simp [dubinsSkip]
    | cons q rs =>
      intro _
      by_cases h : g.dist2D pos (poseXY p) ≤ thr
      · simp only [dubinsSkip]
        rw [if_pos h]
        exact ih (by simp)
      · simp only [dubinsSkip]
        rw [if_neg h]
        simp

/-- When every sample is within the threshold, the loop reduces the plan to
its final sample. -/
theorem dubinsSkip_all_within (g : Geom) (pos : ℚ × ℚ) (thr : ℚ) :
    ∀ (pts : List Pose) (l : Pose), pts.getLast? = some l →
      (∀ p ∈ pts, g.dist2D pos (poseXY p) ≤ thr) →
      dubinsSkip g pos thr pts = [l] := by
  intro pts
  induction pts with
  | nil => intro l hl; exact absurd hl (by simp)
  | cons p rest ih =>
    cases rest with
    | nil =>
      intro l hl _
      simp only [List.getLast?_singleton, Option.some.injEq] at hl
      subst hl
      simp [dubinsSkip]
    | cons q rs =>
      intro l hl hall
      rw [List.getLast?_cons_cons] at hl
      simp only [dubinsSkip]
      rw [if_pos (hall p (by simp))]
      exact ih l hl (fun x hx => hall x (List.mem_cons_of_mem p hx))

/-- C6 (amended): while the lead sample of the queued plan is within the
arrival threshold and another sample remains, it is dropped and the next
sample becomes the steering target; a nonempty queued plan whose samples
are all within the arrival threshold is reduced to its final sample, and
in the far branch of path planning the steering target is the head of the
reduced plan — the plan never empties and the steering target never falls
back to the waypoint's position inside this loop. -/
theorem C6_skip_loop :
    (∀ (g : Geom) (pos : ℚ × ℚ) (thr : ℚ) (p q : Pose) (rest : List Pose),
      g.dist2D pos (poseXY p) ≤ thr →
      dubinsSkip g pos thr (p :: q :: rest) = dubinsSkip g pos thr (q :: rest)) ∧
    (∀ (g : Geom) (pos : ℚ × ℚ) (thr : ℚ) (pts : List Pose) (l : Pose),
      pts.getLast? = some l →
      (∀ p ∈ pts, g.dist2D pos (poseXY p) ≤ thr) →
      dubinsSkip g pos thr pts = [l] ∧ dubinsSkip g pos thr pts ≠ []) ∧
    (∀ (env : Env) (s : Agent) (wp : TimedWaypoint) (dist : ℚ) (p : Pose)
        (rest : List Pose),
      ¬ dist < s.internal_auv.target_threshold + 1 / 2 →
      s.current_dubins_points = p :: rest →
      ∃ q qs, dubinsSkip env.geom (poseXY s.internal_auv.pose)
          s.internal_auv.target_threshold (p :: rest) = q :: qs ∧
        Agent.pathPlanning env s wp dist =
          some ({ s with current_dubins_points := q :: qs }, poseXY q)) := by
  refine ⟨?_, ?_, ?_⟩
  · intro g pos thr p q rest h
    simp only [dubinsSkip]
    rw [if_pos h]
  · intro g pos thr pts l hl hall
    refine ⟨dubinsSkip_all_within g pos thr pts l hl hall, ?_⟩
    rw [dubinsSkip_all_within g pos thr pts l hl hall]
    simp
  · intro env s wp dist p rest hfar hpts
    rcases hq : dubinsSkip env.geom (poseXY s.internal_auv.pose)
        s.internal_auv.target_threshold (p :: rest) with _ | ⟨q, qs⟩
    · exact absurd hq (dubinsSkip_ne env.geom (poseXY s.internal_auv.pose)
        s.internal_auv.target_threshold (p :: rest) (by simp))
    · refine ⟨q, qs, rfl, ?_⟩
      unfold Agent.pathPlanning
      rw [if_neg hfar]
      simp only []
      rw [if_neg (by simp [hpts])]
      rw [hpts]
      simp only []
      rw [hq]

/-- The concrete waypoint for the C6 counterexample (far from the samples). -/
def c6Wp : TimedWaypoint := { demoWp with pose := ⟨10, 10, 0⟩ }

/-- The concrete agent for the C6 counterexample: both queued samples are
within the arrival threshold of the belief pose. -/
def c6Agent : Agent :=
  { demoAgent with current_dubins_points := [⟨1, 0, 0⟩, ⟨0, 1, 0⟩] }

/-- C6 counterexample: every sample of the queued plan is within the
arrival threshold, yet after the dropping loop the plan is the nonempty
final-sample list and the steering target is that sample's position, not
the waypoint's — the claimed "empties and falls back to the waypoint" is
false. -/
theorem C6_counterexample :
    (∀ p ∈ c6Agent.current_dubins_points,
      demoEnv.geom.dist2D (poseXY c6Agent.internal_auv.pose) (poseXY p) ≤
        c6Agent.internal_auv.target_threshold) ∧
    Agent.pathPlanning demoEnv c6Agent c6Wp 10 =
      some ({ c6Agent with current_dubins_points := [⟨0, 1, 0⟩] }, (0, 1)) ∧
    ([⟨0, 1, 0⟩] : List Pose) ≠ [] ∧
    ((0 : ℚ), (1 : ℚ)) ≠ poseXY c6Wp.pose := by
  refine ⟨?_, ?_, by simp, ?_⟩
  · norm_num [c6Agent, demoAgent, Agent.init, demoAUV, demoEnv, demoGeom,
      ratAbs, poseXY]
  · norm_num [Agent.pathPlanning, dubinsSkip, c6Agent, c6Wp, demoAgent,
      Agent.init, demoAUV, demoWp, demoEnv, demoGeom, ratAbs, poseXY,
      demoPlan, demoConfig]
  · norm_num [c6Wp, demoWp, poseXY]

/-- Witness for the amended C6 theorem at the concrete two-sample plan. -/
theorem C6_skip_loop_witness :
    (demoEnv.geom.dist2D (poseXY c6Agent.internal_auv.pose)
        (poseXY ⟨1, 0, 0⟩) ≤ c6Agent.internal_auv.target_threshold ∧
      dubinsSkip demoEnv.geom (poseXY c6Agent.internal_auv.pose)
          c6Agent.internal_auv.target_threshold [⟨1, 0, 0⟩, ⟨0, 1, 0⟩] =
        dubinsSkip demoEnv.geom (poseXY c6Agent.internal_auv.pose)
          c6Agent.internal_auv.target_threshold [⟨0, 1, 0⟩]) ∧
    (([(⟨1, 0, 0⟩ : Pose), ⟨0, 1, 0⟩] : List Pose).getLast? = some ⟨0, 1, 0⟩ ∧
      (∀ p ∈ ([⟨1, 0, 0⟩, ⟨0, 1, 0⟩] : List Pose),
        demoEnv.geom.dist2D (poseXY c6Agent.internal_auv.pose) (poseXY p) ≤
          c6Agent.internal_auv.target_threshold) ∧
      dubinsSkip demoEnv.geom (poseXY c6Agent.internal_auv.pose)
          c6Agent.internal_auv.target_threshold [⟨1, 0, 0⟩, ⟨0, 1, 0⟩] =
        [⟨0, 1, 0⟩] ∧
      dubinsSkip demoEnv.geom (poseXY c6Agent.internal_auv.pose)
          c6Agent.internal_auv.target_threshold [⟨1, 0, 0⟩, ⟨0, 1, 0⟩] ≠ []) := by
  have h1 : demoEnv.geom.dist2D (poseXY c6Agent.internal_auv.pose)
      (poseXY ⟨1, 0, 0⟩) ≤ c6Agent.internal_auv.target_threshold := by
    norm_num [c6Agent, demoAgent, Agent.init, demoAUV, demoEnv, demoGeom,
      ratAbs, poseXY]
  have hall : ∀ p ∈ ([⟨1, 0, 0⟩, ⟨0, 1, 0⟩] : List Pose),
      demoEnv.geom.dist2D (poseXY c6Agent.internal_auv.pose) (poseXY p) ≤
        c6Agent.internal_auv.target_threshold := by
    norm_num [c6Agent, demoAgent, Agent.init, demoAUV, demoEnv, demoGeom,
      ratAbs, poseXY]
  exact ⟨⟨h1, C6_skip_loop.1 demoEnv.geom (poseXY c6Agent.internal_auv.pose)
      c6Agent.internal_auv.target_threshold ⟨1, 0, 0⟩ ⟨0, 1, 0⟩ [] h1⟩,
    ⟨rfl, hall, C6_skip_loop.2.1 demoEnv.geom (poseXY c6Agent.internal_auv.pose)
      c6Agent.internal_auv.target_threshold [⟨1, 0, 0⟩, ⟨0, 1, 0⟩] ⟨0, 1, 0⟩
      rfl hall⟩⟩

/-! ## C7: aggregation with an empty error series -/

/-- The concrete agent for C7: a mission (non-landmark) agent whose mission
plan has no waypoints, so no tick ever records an error sample. -/
def c7Agent : Agent :=
  { demoAgent with
      mission_plan := { wps := [], cursor := 0, config := demoConfig } }

/-- C7: an agent with zero recorded error samples reaches aggregation with
an empty list (update ticks keep it empty), and the embedded
`calculate_stats` time-series block then raises (the Python
`zip(*agent.real_errors)` ValueError) instead of skipping the agent or
yielding an empty result. -/
theorem C7_empty_series_crash :
    c7Agent.real_errors = [] ∧
    (Agent.update demoEnv 1 c7Agent [] [] 0).map
      (fun out => out.1.real_errors) = some [] ∧
    calculate_stats_errs [c7Agent] =
      Except.error "cannot unpack zip of an empty sequence" := by
  refine ⟨rfl, rfl, rfl⟩

end CoopCov
